import Mathlib

/-!
Verification of the state-transform and derived-statistics engine of the
Ramadan habit-tracking app (`src/lib/analytics.ts`, state-management and
gallery sections, together with the `AppState` types of `app-types.ts`).

Embedding conventions:

* JS object records (`Record<string, T>`) are embedded as association lists
  `List (key × T)` with first-match lookup (`lookup?`).  JS key update
  (`obj[k] = v` and the spread `{...obj, [k]: v}`) replaces the value in
  place when the key exists and appends otherwise (`setKey`).
* Calendar dates (`"YYYY-MM-DD"` strings) are embedded by their calendar
  day number as an `Int`.  The source's `getDateString`/`addDays` realise a
  bijection between such strings and whole days, under which
  `addDays d n` is plain integer addition `d + n`; `getDateString()`
  (the wall clock) becomes an explicit `today : Int` parameter.
* `new Date().toISOString()` timestamps become an explicit `now : String`
  parameter.
* The untyped documents handled by migration and import (`any` in the
  source) are embedded as a JSON-like value type `JVal`, with JS
  truthiness, `typeof`, `||`, `??` and property access modelled explicitly.
* JS numbers are embedded as `Int` (counts and versions in this engine are
  integral).  The one floating-point computation,
  `Math.round((totalDone / totalItems) * 100)` in `getDayStats`, is
  modelled exactly: the division and the multiplication are each rounded
  to binary64 (53-bit significand, round to nearest, ties to even), and
  `Math.round` is the exact half-up rounding of the resulting double, as
  ECMA specifies.  This differs from exact rational rounding on reachable
  inputs (23 done of 40 items gives 57, not round(57.5) = 58).
* Fallible operations (`JSON.parse`, the catching `importData`) return
  `Option`; a thrown-and-caught parse is the `none` input, and the
  `TypeError`s the migration steps can raise on malformed documents (and
  which `importData` catches) are modelled by explicit throw predicates
  that make the migration steps return `none`.
-/

namespace Dayma

/-- First-match lookup in an association list; models `obj[key]` returning
`undefined` (here `none`) for a missing key. -/
def lookup? {κ α : Type} [DecidableEq κ] : List (κ × α) → κ → Option α
  | [], _ => none
  | (k, v) :: rest, key => if k = key then some v else lookup? rest key

/-- Key update for an association list; models JS `obj[k] = v` and
`{...obj, [k]: v}`: the value is replaced in place when the key exists and
appended at the end otherwise. -/
def setKey {κ α : Type} [DecidableEq κ] : List (κ × α) → κ → α → List (κ × α)
  | [], key, v => [(key, v)]
  | (k, w) :: rest, key, v =>
    if k = key then (k, v) :: rest else (k, w) :: setKey rest key v

-- ── JSON-like values for the untyped migration / import paths ──

/-- JS value as seen by the migration code (`any` in the source).  `undefined`
is the `undefined` produced by accessing a missing property; `JSON.parse`
itself never yields it. -/
inductive JVal where
  | null
  | undefined
  | bool (b : Bool)
  | num (n : Int)
  | str (s : String)
  | arr (elems : List JVal)
  | obj (fields : List (String × JVal))

/-- Property access `v.key`: fields of objects, `undefined` otherwise.
(Access on `null`/`undefined` throws in JS; the source only performs it on
values it has already guarded, and the import theorems restrict to
documents where the guarded accesses are safe.) -/
def jGet : JVal → String → JVal
  | .obj fs, key => (lookup? fs key).getD .undefined
  | _, _ => .undefined

/-- JS truthiness. -/
def jsTruthy : JVal → Bool
  | .null => false
  | .undefined => false
  | .bool b => b
  | .num n => n != 0
  | .str s => s != ""
  | .arr _ => true
  | .obj _ => true

/-- JS `typeof v === "object"` (true for `null`, arrays and objects). -/
def typeofObject : JVal → Bool
  | .null => true
  | .arr _ => true
  | .obj _ => true
  | _ => false

/-- JS `a || b`. -/
def jor (a b : JVal) : JVal := if jsTruthy a then a else b

/-- JS `a ?? b`. -/
def jcoalesce (a b : JVal) : JVal :=
  match a with
  | .null => b
  | .undefined => b
  | _ => a

/-- JS `v < k` for an integer literal `k`.  Numbers (and the numeric
coercions of booleans and `null`) compare numerically; other operands are
modelled as `NaN`-like, for which every comparison is false.  (JS would
also coerce numeric strings; no migration version in this app is a
string, so that coercion is not modelled.) -/
def jltNum (v : JVal) (k : Int) : Bool :=
  match v with
  | .num n => n < k
  | .bool b => (if b then (1 : Int) else 0) < k
  | .null => 0 < k
  | _ => false

/-- Elements of an array value (`.map` in the source is only applied to
values guarded to be arrays; other values yield `[]` here). -/
def jElems : JVal → List JVal
  | .arr xs => xs
  | _ => []

/-- JS `Object.entries`: fields of an object, index/element pairs of an
array or string, `[]` for other primitives. -/
def jEntries : JVal → List (String × JVal)
  | .obj fs => fs
  | .arr xs => xs.enum.map (fun p => (toString p.1, p.2))
  | .str s => s.data.enum.map (fun p => (toString p.1, JVal.str (String.mk [p.2])))
  | _ => []

/-- Fields contributed by a JS object spread `{...v}`: the fields of an
object, nothing for the primitives the source can meet here. -/
def spreadFields : JVal → List (String × JVal)
  | .obj fs => fs
  | _ => []

-- ── String.replace (first occurrence) ──

/-- Drop `pat` from the front of `s`, or fail. -/
def dropPrefix? : List Char → List Char → Option (List Char)
  | [], s => some s
  | _ :: _, [] => none
  | p :: ps, c :: cs => if p = c then dropPrefix? ps cs else none

/-- Replace the first (leftmost) occurrence of `pat` in the character list. -/
def replaceFirstL (pat rep : List Char) : List Char → List Char
  | [] =>
    match dropPrefix? pat [] with
    | some rest => rep ++ rest
    | none => []
  | c :: cs =>
    match dropPrefix? pat (c :: cs) with
    | some rest => rep ++ rest
    | none => c :: replaceFirstL pat rep cs

/-- JS `s.replace(pat, rep)` with a plain-string pattern: replaces only the
first occurrence. -/
def jsReplaceFirst (s pat rep : String) : String :=
  String.mk (replaceFirstL pat.data rep.data s.data)

-- ── Catalog data (gallery.ts section) ──

/-- Entry of the fixed basics catalog (`BasicAction` in `app-types.ts`). -/
structure BasicAction where
  id : String
  titleKey : String
  titleAr : String
  iconName : String
  category : String
deriving DecidableEq

/-- The fixed list of basics: five daily prayers plus fasting (`BASICS`). -/
def BASICS : List BasicAction :=
  [ { id := "fajr", titleKey := "basics.fajr", titleAr := "صلاة الفجر",
      iconName := "sunrise", category := "prayer" },
    { id := "dhuhr", titleKey := "basics.dhuhr", titleAr := "صلاة الظهر",
      iconName := "sun", category := "prayer" },
    { id := "asr", titleKey := "basics.asr", titleAr := "صلاة العصر",
      iconName := "cloud-sun", category := "prayer" },
    { id := "maghrib", titleKey := "basics.maghrib", titleAr := "صلاة المغرب",
      iconName := "sunset", category := "prayer" },
    { id := "isha", titleKey := "basics.isha", titleAr := "صلاة العشاء",
      iconName := "moon", category := "prayer" },
    { id := "fasting", titleKey := "basics.fasting", titleAr := "الصيام",
      iconName := "utensils-crossed", category := "fasting" } ]

/-- Ids of all basics (`ALL_BASIC_IDS`). -/
def ALL_BASIC_IDS : List String := BASICS.map (fun b => b.id)

/-- Entry of the monthly-goals gallery (`MonthlyGoalGalleryItem`). -/
structure MonthlyGoalGalleryItem where
  id : String
  titleKey : String
  titleAr : String
  descriptionKey : String
  descriptionAr : String
  iconName : String
  category : String
  defaultTarget : Int
deriving DecidableEq

/-- The curated monthly-goals gallery (`MONTHLY_GOALS_GALLERY`). -/
def MONTHLY_GOALS_GALLERY : List MonthlyGoalGalleryItem :=
  [ { id := "monthly-charity", titleKey := "monthly.charity", titleAr := "صدقة كبيرة",
      descriptionKey := "monthly.charity_desc",
      descriptionAr := "تبرع بمبلغ كبير أو كفالة يتيم أو إطعام عائلات",
      iconName := "heart-handshake", category := "charity", defaultTarget := 4 },
    { id := "monthly-quran-khatm", titleKey := "monthly.quran_khatm", titleAr := "ختم القرآن",
      descriptionKey := "monthly.quran_khatm_desc",
      descriptionAr := "إتمام ختمة كاملة للقرآن خلال رمضان",
      iconName := "book-open", category := "quran", defaultTarget := 1 },
    { id := "monthly-family-iftar", titleKey := "monthly.family_iftar", titleAr := "إفطارات عائلية",
      descriptionKey := "monthly.family_iftar_desc",
      descriptionAr := "دعوة العائلة أو الجيران لإفطار",
      iconName := "users", category := "charity", defaultTarget := 4 },
    { id := "monthly-lecture", titleKey := "monthly.lecture", titleAr := "حضور دروس علمية",
      descriptionKey := "monthly.lecture_desc",
      descriptionAr := "حضور دروس ومحاضرات في المسجد أو عبر الإنترنت",
      iconName := "graduation-cap", category := "learning", defaultTarget := 8 },
    { id := "monthly-visit-sick", titleKey := "monthly.visit_sick", titleAr := "زيارة المرضى",
      descriptionKey := "monthly.visit_sick_desc",
      descriptionAr := "زيارة المرضى أو الاتصال بهم للاطمئنان",
      iconName := "heart", category := "charity", defaultTarget := 3 },
    { id := "monthly-itikaf", titleKey := "monthly.itikaf", titleAr := "اعتكاف",
      descriptionKey := "monthly.itikaf_desc",
      descriptionAr := "اعتكاف بين الفجر والشروق أو في العشر الأواخر",
      iconName := "flag", category := "prayer", defaultTarget := 10 },
    { id := "monthly-feed-fasting", titleKey := "monthly.feed_fasting", titleAr := "إفطار صائمين",
      descriptionKey := "monthly.feed_fasting_desc",
      descriptionAr := "تفطير صائمين ولو بتمر وماء",
      iconName := "utensils", category := "charity", defaultTarget := 10 },
    { id := "monthly-night-prayer", titleKey := "monthly.night_prayer", titleAr := "قيام الليل",
      descriptionKey := "monthly.night_prayer_desc",
      descriptionAr := "قيام الليل في الثلث الأخير",
      iconName := "star", category := "prayer", defaultTarget := 15 } ]

/-- Find a monthly-goal gallery item by id (`findMonthlyGoalGallery`). -/
def findMonthlyGoalGallery (id : String) : Option MonthlyGoalGalleryItem :=
  MONTHLY_GOALS_GALLERY.find? (fun g => g.id == id)

-- ── Typed data model (app-types.ts) ──

/-- A tracked daily habit (`DailyHabit`); optional fields are the TS
optional properties. -/
structure DailyHabit where
  id : String
  titleKey : String
  descriptionKey : String
  category : String
  iconName : Option String
  target : Option Int
  unitKey : Option String
  source : String
  enabled : Bool
  addedAt : String
deriving DecidableEq

/-- A monthly goal with a numeric target (`MonthlyGoal`). -/
structure MonthlyGoal where
  id : String
  titleKey : String
  titleAr : String
  descriptionKey : String
  descriptionAr : String
  iconName : String
  category : String
  target : Int
  source : String
deriving DecidableEq

/-- Per-day value of a monthly goal: a numeric count or a legacy boolean
(`Record<string, number | boolean>` in `DayEntry`). -/
inductive GoalVal where
  | num (n : Int)
  | bool (b : Bool)
deriving DecidableEq

/-- Truthiness of a goal value (for `filter(Boolean)`). -/
def gvTruthy : GoalVal → Bool
  | .num n => n != 0
  | .bool b => b

/-- The per-date record (`DayEntry`). -/
structure DayEntry where
  basics : List (String × Bool)
  completions : List (String × Bool)
  monthlyGoalCompletions : List (String × GoalVal)
  reflection : String
deriving DecidableEq

/-- The root document (`AppState`); `days` is keyed by calendar day
number (see the embedding conventions above). -/
structure AppState where
  version : Int
  locale : String
  setupComplete : Bool
  ramadanStartDate : String
  enabledBasics : List String
  dailyHabits : List DailyHabit
  monthlyGoals : List MonthlyGoal
  days : List (Int × DayEntry)
deriving DecidableEq

/-- Current schema version (`APP_STATE_VERSION`). -/
def APP_STATE_VERSION : Int := 4

/-- The canonical empty document (`getDefaultState`); the source's default
argument `locale = "en"` is passed explicitly at call sites here. -/
def getDefaultState (locale : String) : AppState :=
  { version := APP_STATE_VERSION
    locale := locale
    setupComplete := false
    ramadanStartDate := "2026-02-18"
    enabledBasics := ALL_BASIC_IDS
    dailyHabits := []
    monthlyGoals := []
    days := [] }

-- ── Pure state transforms (analytics.ts state-management section) ──

/-- Add a daily habit unless one with the same id exists (`addHabit`). -/
def addHabit (state : AppState) (habit : DailyHabit) : AppState :=
  if state.dailyHabits.any (fun h => h.id == habit.id) then state
  else { state with dailyHabits := state.dailyHabits ++ [habit] }

/-- Add a monthly goal unless one with the same id exists
(`addMonthlyGoal`). -/
def addMonthlyGoal (state : AppState) (goal : MonthlyGoal) : AppState :=
  if state.monthlyGoals.any (fun g => g.id == goal.id) then state
  else { state with monthlyGoals := state.monthlyGoals ++ [goal] }

/-- Ensure a day entry exists (`ensureDayEntry`): no-op when the date is
present; otherwise insert an entry with every enabled basic unchecked,
empty completions and goal counts, empty reflection. -/
def ensureDayEntry (state : AppState) (date : Int) : AppState :=
  match lookup? state.days date with
  | some _ => state
  | none =>
    let entry : DayEntry :=
      { basics := state.enabledBasics.map (fun id => (id, false))
        completions := []
        monthlyGoalCompletions := []
        reflection := "" }
    { state with days := setKey state.days date entry }

-- ── Binary64 rounding (the float computation of getDayStats) ──

/-- Round `N / D` (with `0 < D`) to the nearest integer, ties to even. -/
def rneNat (N D : ℕ) : ℕ :=
  let f := N / D
  let r := N % D
  if 2 * r < D then f
  else if D < 2 * r then f + 1
  else if f % 2 = 0 then f else f + 1

/-- Fuel-driven search for the least `s` with `2 ^ 52 * D ≤ N * 2 ^ s`
(the fuel only needs to exceed that `s`). -/
def flScaleF : ℕ → ℕ → ℕ → ℕ
  | 0, _, _ => 0
  | fuel + 1, N, D => if 2 ^ 52 * D ≤ N then 0 else flScaleF fuel (2 * N) D + 1

/-- Least `s` with `2 ^ 52 * D ≤ N * 2 ^ s`, for `0 < N`: it scales
`N / D` into the binade `[2 ^ 52, 2 ^ 53)` of the significand grid. -/
def flScale (N D : ℕ) : ℕ := flScaleF (53 + D) N D

/-- The binary64 double nearest to the positive rational `N / D` (round to
nearest, ties to even), returned as a dyadic pair `(m, s)` whose value is
`m / 2 ^ s`: the integers of `[2 ^ 52, 2 ^ 53]` scaled by `2 ^ (-s)` are
exactly the representable doubles of the value's binade.  Valid for the
normal range, which covers every ratio a percentage computation meets. -/
def flPos (N D : ℕ) : ℕ × ℕ :=
  let s := flScale N D
  (rneNat (N * 2 ^ s) D, s)

/-- JS `Math.round((a / b) * 100)` for `0 < b`, computed as the engine
does: `a / b` rounded to a double, that double times 100 rounded to a
double again, then ECMA `Math.round` — the exact half-up rounding
`⌊x + 1/2⌋` of the double `x = m₂ / 2 ^ s₂`, here as the natural-number
division `(2 m₂ + 2 ^ s₂) / 2 ^ (s₂ + 1)`. -/
def jsPercent (a b : ℕ) : ℕ :=
  if a = 0 then 0
  else
    let p1 := flPos a b
    let p2 := flPos (100 * p1.1) (2 ^ p1.2)
    (2 * p2.1 + 2 ^ p2.2) / 2 ^ (p2.2 + 1)

-- ── Derived statistics ──

/-- Result record of `getDayStats`. -/
structure DayStats where
  basicsTotal : Nat
  basicsDone : Nat
  dailyTotal : Nat
  dailyDone : Nat
  monthlyDone : Nat
  percent : Nat
deriving DecidableEq

/-- Completion stats for one date (`getDayStats`).  The percent is the
source's `Math.round((totalDone / totalItems) * 100)` computed in
binary64 doubles (`jsPercent`), which diverges from exact rational
rounding at double-rounding boundaries (e.g. 23 of 40 gives 57, while
round(57.5) = 58). -/
def getDayStats (state : AppState) (date : Int) : DayStats :=
  match lookup? state.days date with
  | none =>
    { basicsTotal := state.enabledBasics.length
      basicsDone := 0
      dailyTotal := 0
      dailyDone := 0
      monthlyDone := 0
      percent := 0 }
  | some entry =>
    let basicsTotal := state.enabledBasics.length
    let basicsDone :=
      (state.enabledBasics.filter (fun id => lookup? entry.basics id == some true)).length
    let todayHabits := state.dailyHabits.filter (fun h => h.enabled)
    let dailyTotal := todayHabits.length
    let dailyDone :=
      (todayHabits.filter (fun h => (lookup? entry.completions h.id).getD false)).length
    let monthlyDone :=
      ((entry.monthlyGoalCompletions.map (fun p => p.2)).filter gvTruthy).length
    let totalItems := basicsTotal + dailyTotal
    let totalDone := basicsDone + dailyDone
    let percent := if 0 < totalItems then jsPercent totalDone totalItems else 100
    { basicsTotal := basicsTotal
      basicsDone := basicsDone
      dailyTotal := dailyTotal
      dailyDone := dailyDone
      monthlyDone := monthlyDone
      percent := percent }

/-- Count for a monthly goal on one day entry (`getMonthlyGoalDayCount`):
a number counts as itself, `true` as 1, anything else as 0. -/
def getMonthlyGoalDayCount (entry : DayEntry) (goalId : String) : Int :=
  match lookup? entry.monthlyGoalCompletions goalId with
  | some (.num n) => n
  | some (.bool b) => if b then 1 else 0
  | none => 0

/-- Total completions for a monthly goal across all days
(`getMonthlyGoalProgress`): the accumulating loop over `state.days`. -/
def getMonthlyGoalProgress (state : AppState) (goalId : String) : Int :=
  state.days.foldl
    (fun count p =>
      match lookup? p.2.monthlyGoalCompletions goalId with
      | some (GoalVal.num n) => count + n
      | some (GoalVal.bool b) => if b then count + 1 else count
      | none => count)
    0

-- ── Current streak (calculateStreak) ──

/-- Smallest recorded day number, with `today` as the fold's start value;
every date strictly below it has no entry. -/
def earliestDay (state : AppState) (today : Int) : Int :=
  (state.days.map (fun p => p.1)).foldl min today

/-- Body of the backward `while (true)` walk of `calculateStreak`,
with explicit fuel.  One step: stop when the day's percent is below 50
while it has enabled daily habits, or when a day other than today has no
entry; otherwise count the day and move one day back. -/
def streakFuel (state : AppState) (today : Int) : Nat → Int → Nat
  | 0, _ => 0
  | fuel + 1, date =>
    let stats := getDayStats state date
    if stats.percent < 50 ∧ 0 < stats.dailyTotal then 0
    else if lookup? state.days date = none ∧ date ≠ today then 0
    else 1 + streakFuel state today fuel (date - 1)

/-- Fuel that certainly outlasts the walk: one more than the number of
days from the earliest recorded date up to today. -/
def streakFuelBound (state : AppState) (today : Int) : Nat :=
  (today + 1 - earliestDay state today).toNat + 1

/-- Current streak (`calculateStreak`), walking backward from `today`.
The source's unbounded loop is run with sufficient fuel; the termination
theorem shows the result does not depend on the fuel beyond the bound. -/
def calculateStreak (state : AppState) (today : Int) : Nat :=
  streakFuel state today (streakFuelBound state today) today

-- ── Migration (migrateToV3 / migrateToV4) ──

/-- One action of the old document in `migrateToV3`:
`{...a, source: a.source || (a.isCustom ? "custom" : "gallery"),
addedAt: a.addedAt || now}`. -/
def migrateActionV3 (now : String) (a : JVal) : JVal :=
  JVal.obj
    (setKey
      (setKey (spreadFields a) "source"
        (jor (jGet a "source")
          (if jsTruthy (jGet a "isCustom") then JVal.str "custom" else JVal.str "gallery")))
      "addedAt" (jor (jGet a "addedAt") (JVal.str now)))

/-- One day entry of the old document in `migrateToV3` (missing basics
default to all `true` in this legacy step). -/
def migrateDayV3 (e : JVal) : JVal :=
  JVal.obj
    [ ("basics",
        jor (jGet e "basics")
          (JVal.obj (ALL_BASIC_IDS.map (fun id => (id, JVal.bool true))))),
      ("completions", jor (jGet e "completions") (JVal.obj [])),
      ("weeklyCompletions", jor (jGet e "weeklyCompletions") (JVal.obj [])),
      ("reflection", jor (jGet e "reflection") (JVal.str "")) ]

/-- Migration step v1/v2 → v3 (`migrateToV3`). -/
def migrateToV3J (now : String) (old : JVal) : JVal :=
  JVal.obj
    [ ("version", JVal.num 3),
      ("locale", jor (jGet old "locale") (JVal.str "en")),
      ("setupComplete", jcoalesce (jGet old "setupComplete") (JVal.bool false)),
      ("ramadanStartDate", jor (jGet old "ramadanStartDate") (JVal.str "2026-02-18")),
      ("enabledBasics",
        jor (jGet old "enabledBasics") (JVal.arr (ALL_BASIC_IDS.map JVal.str))),
      ("actions",
        JVal.arr ((jElems (jor (jGet old "actions") (JVal.arr []))).map (migrateActionV3 now))),
      ("weeklyGoals", jor (jGet old "weeklyGoals") (JVal.arr [])),
      ("days",
        JVal.obj
          ((jEntries (jor (jGet old "days") (JVal.obj []))).map
            (fun p => (p.1, migrateDayV3 p.2)))) ]

/-- One action converted to a `DailyHabit`-shaped object in `migrateToV4`
(the `frequency` field of v3 actions is simply not copied). -/
def habitOfActionV4 (now : String) (a : JVal) : JVal :=
  JVal.obj
    [ ("id", jGet a "id"),
      ("titleKey", jGet a "titleKey"),
      ("descriptionKey", jGet a "descriptionKey"),
      ("category", jGet a "category"),
      ("iconName", jGet a "iconName"),
      ("target", jGet a "target"),
      ("unitKey", jGet a "unitKey"),
      ("source", jor (jGet a "source") (JVal.str "gallery")),
      ("enabled", jcoalesce (jGet a "enabled") (JVal.bool true)),
      ("addedAt", jor (jGet a "addedAt") (JVal.str now)) ]

/-- The `MonthlyGoal`-shaped object built from a gallery item in
`migrateToV4` (target is the gallery's default target). -/
def goalObjOfItem (item : MonthlyGoalGalleryItem) : JVal :=
  JVal.obj
    [ ("id", JVal.str item.id),
      ("titleKey", JVal.str item.titleKey),
      ("titleAr", JVal.str item.titleAr),
      ("descriptionKey", JVal.str item.descriptionKey),
      ("descriptionAr", JVal.str item.descriptionAr),
      ("iconName", JVal.str item.iconName),
      ("category", JVal.str item.category),
      ("target", JVal.num item.defaultTarget),
      ("source", JVal.str "gallery") ]

/-- Map one old weekly-goal id in `migrateToV4`: replace the first
`weekly-` by `monthly-`, look the result up in the current gallery, keep
the converted goal or drop it (`null`, filtered out).  The source would
throw on a non-string id (and `importData` would turn that into `null`);
the import theorems restrict to string goal ids. -/
def goalOfOldId (g : JVal) : Option JVal :=
  match g with
  | .str oldId =>
    match findMonthlyGoalGallery (jsReplaceFirst oldId "weekly-" "monthly-") with
    | some item => some (goalObjOfItem item)
    | none => none
  | _ => none

/-- One day entry in `migrateToV4`: rename `weeklyCompletions` keys to
`monthly-` (later keys overwrite on collision, as JS assignment does). -/
def dayOfOldV4 (e : JVal) : JVal :=
  JVal.obj
    [ ("basics",
        jor (jGet e "basics")
          (JVal.obj (ALL_BASIC_IDS.map (fun id => (id, JVal.bool true))))),
      ("completions", jor (jGet e "completions") (JVal.obj [])),
      ("monthlyGoalCompletions",
        JVal.obj
          (if jsTruthy (jGet e "weeklyCompletions") then
            (jEntries (jGet e "weeklyCompletions")).foldl
              (fun acc p => setKey acc (jsReplaceFirst p.1 "weekly-" "monthly-") p.2) []
          else [])),
      ("reflection", jor (jGet e "reflection") (JVal.str "")) ]

/-- Migration step v3 → v4 (`migrateToV4`): starts from the default state
and overrides its fields, so the result has exactly the default state's
shape and key order. -/
def migrateToV4J (now : String) (old : JVal) : JVal :=
  JVal.obj
    [ ("version", JVal.num 4),
      ("locale", jor (jGet old "locale") (JVal.str "en")),
      ("setupComplete", jcoalesce (jGet old "setupComplete") (JVal.bool false)),
      ("ramadanStartDate", jor (jGet old "ramadanStartDate") (JVal.str "2026-02-18")),
      ("enabledBasics",
        jor (jGet old "enabledBasics") (JVal.arr (ALL_BASIC_IDS.map JVal.str))),
      ("dailyHabits",
        JVal.arr ((jElems (jor (jGet old "actions") (JVal.arr []))).map (habitOfActionV4 now))),
      ("monthlyGoals",
        JVal.arr ((jElems (jor (jGet old "weeklyGoals") (JVal.arr []))).filterMap goalOfOldId)),
      ("days",
        JVal.obj
          (if jsTruthy (jGet old "days") then
            (jEntries (jGet old "days")).foldl
              (fun acc p => setKey acc p.1 (dayOfOldV4 p.2)) []
          else [])) ]

-- ── Thrown migration errors ──

/-- Values whose property access throws a `TypeError` in JS. -/
def isNullish : JVal → Bool
  | .null => true
  | .undefined => true
  | _ => false

/-- Whether the value is an array (only arrays carry `.map`). -/
def isArrVal : JVal → Bool
  | .arr _ => true
  | _ => false

/-- Whether the value is a string (only strings carry `.replace`). -/
def isStrVal : JVal → Bool
  | .str _ => true
  | _ => false

/-- The conditions under which `migrateToV3` throws a `TypeError`:
`(old.actions || []).map` on a truthy non-array, `a.source` on a nullish
action, or `entry.basics` on a nullish day value. -/
def migrateToV3Throws (old : JVal) : Bool :=
  !isArrVal (jor (jGet old "actions") (JVal.arr []))
  || (jElems (jor (jGet old "actions") (JVal.arr []))).any isNullish
  || (jEntries (jor (jGet old "days") (JVal.obj []))).any (fun p => isNullish p.2)

/-- The conditions under which `migrateToV4` throws a `TypeError`:
`.map` on a truthy non-array `actions` or `weeklyGoals`, `a.id` on a
nullish action, `oldId.replace` on a non-string goal id, or
`oldEntry.weeklyCompletions` on a nullish day value. -/
def migrateToV4Throws (old : JVal) : Bool :=
  !isArrVal (jor (jGet old "actions") (JVal.arr []))
  || (jElems (jor (jGet old "actions") (JVal.arr []))).any isNullish
  || !isArrVal (jor (jGet old "weeklyGoals") (JVal.arr []))
  || (jElems (jor (jGet old "weeklyGoals") (JVal.arr []))).any (fun g => !isStrVal g)
  || (jsTruthy (jGet old "days") && (jEntries (jGet old "days")).any (fun p => isNullish p.2))

/-- The v1/v2 → v3 step as the caller observes it: the built document, or
`none` for a thrown `TypeError` (which the caller's `try` turns into
`null` / the default state). -/
def migrateToV3E (now : String) (old : JVal) : Option JVal :=
  if migrateToV3Throws old then none else some (migrateToV3J now old)

/-- The v3 → v4 step as the caller observes it (see `migrateToV3E`). -/
def migrateToV4E (now : String) (old : JVal) : Option JVal :=
  if migrateToV4Throws old then none else some (migrateToV4J now old)

-- ── Serialization (JSON value of a typed state) ──

/-- JSON value of a goal's per-day value. -/
def encodeGoalValJ : GoalVal → JVal
  | .num n => .num n
  | .bool b => .bool b

/-- JSON value of a `DayEntry`, in the key order the engine creates
entries with. -/
def encodeEntryJ (e : DayEntry) : JVal :=
  JVal.obj
    [ ("basics", JVal.obj (e.basics.map (fun p => (p.1, JVal.bool p.2)))),
      ("completions", JVal.obj (e.completions.map (fun p => (p.1, JVal.bool p.2)))),
      ("monthlyGoalCompletions",
        JVal.obj (e.monthlyGoalCompletions.map (fun p => (p.1, encodeGoalValJ p.2)))),
      ("reflection", JVal.str e.reflection) ]

/-- JSON value of a `DailyHabit`.  `JSON.stringify` drops keys whose value
is `undefined`, so absent optional fields are omitted. -/
def encodeHabitJ (h : DailyHabit) : JVal :=
  JVal.obj
    ([ ("id", JVal.str h.id),
       ("titleKey", JVal.str h.titleKey),
       ("descriptionKey", JVal.str h.descriptionKey),
       ("category", JVal.str h.category) ]
      ++ (match h.iconName with
          | some i => [("iconName", JVal.str i)]
          | none => [])
      ++ (match h.target with
          | some t => [("target", JVal.num t)]
          | none => [])
      ++ (match h.unitKey with
          | some u => [("unitKey", JVal.str u)]
          | none => [])
      ++ [ ("source", JVal.str h.source),
           ("enabled", JVal.bool h.enabled),
           ("addedAt", JVal.str h.addedAt) ])

/-- JSON value of a `MonthlyGoal`. -/
def encodeGoalJ (g : MonthlyGoal) : JVal :=
  JVal.obj
    [ ("id", JVal.str g.id),
      ("titleKey", JVal.str g.titleKey),
      ("titleAr", JVal.str g.titleAr),
      ("descriptionKey", JVal.str g.descriptionKey),
      ("descriptionAr", JVal.str g.descriptionAr),
      ("iconName", JVal.str g.iconName),
      ("category", JVal.str g.category),
      ("target", JVal.num g.target),
      ("source", JVal.str g.source) ]

/-- JSON value of the whole document; day keys are the date strings,
embedded by the decimal rendering of the day number. -/
def encodeStateJ (s : AppState) : JVal :=
  JVal.obj
    [ ("version", JVal.num s.version),
      ("locale", JVal.str s.locale),
      ("setupComplete", JVal.bool s.setupComplete),
      ("ramadanStartDate", JVal.str s.ramadanStartDate),
      ("enabledBasics", JVal.arr (s.enabledBasics.map JVal.str)),
      ("dailyHabits", JVal.arr (s.dailyHabits.map encodeHabitJ)),
      ("monthlyGoals", JVal.arr (s.monthlyGoals.map encodeGoalJ)),
      ("days", JVal.obj (s.days.map (fun p => (toString p.1, encodeEntryJ p.2)))) ]

/-- Export (`exportData`): the source returns `JSON.stringify(state)`;
the serialized text is modelled by its JSON value (`JSON.parse` of the
produced text yields exactly this value). -/
def exportDataJ (s : AppState) : JVal := encodeStateJ s

-- ── Load / import ──

/-- Version dispatch shared by `loadState` and `importData`: documents of
version below 3 go through both migration steps, version 3 through the
second step only, anything else is returned as-is; `none` is a thrown
`TypeError` inside a migration step, which either caller's `try` catches. -/
def loadRouteE (now : String) (parsed : JVal) : Option JVal :=
  if jltNum (jGet parsed "version") 3 then
    (migrateToV3E now parsed).bind (migrateToV4E now)
  else if jltNum (jGet parsed "version") 4 then migrateToV4E now parsed
  else some parsed

/-- Load path (`loadState`) on the parsed stored document: `none` input
models a missing or unparseable stored value; a `null` document (whose
`version` access throws) and a thrown migration both fall back to the
default state via the `catch`. -/
def loadStateJ (now : String) (raw : Option JVal) : JVal :=
  match raw with
  | none => encodeStateJ (getDefaultState "en")
  | some JVal.null => encodeStateJ (getDefaultState "en")
  | some parsed => (loadRouteE now parsed).getD (encodeStateJ (getDefaultState "en"))

/-- Import (`importData`): `none` input models text on which `JSON.parse`
throws.  The parsed value must be truthy, of `typeof "object"`, and have
a truthy `version` field, else the result is `null` (`none`); a
`TypeError` thrown inside a migration step is caught by the surrounding
`try` and also surfaces as `null`. -/
def importDataJ (now : String) (input : Option JVal) : Option JVal :=
  match input with
  | none => none
  | some parsed =>
    if jsTruthy parsed ∧ typeofObject parsed ∧ jsTruthy (jGet parsed "version") then
      if jltNum (jGet parsed "version") 3 then
        (migrateToV3E now parsed).bind (migrateToV4E now)
      else if jltNum (jGet parsed "version") 4 then migrateToV4E now parsed
      else some parsed
    else none

-- ── Association-list lemmas ──

theorem lookup?_setKey_self {κ α : Type} [DecidableEq κ] (l : List (κ × α)) (k : κ) (v : α) :
    lookup? (setKey l k v) k = some v := by
  induction l with
  | nil => simp [setKey, lookup?]
  | cons p rest ih =>
    by_cases h : p.1 = k
    · simp [setKey, lookup?, h]
    · simp [setKey, lookup?, h, ih]

theorem setKey_eq_append {κ α : Type} [DecidableEq κ] (l : List (κ × α)) (k : κ) (v : α)
    (h : lookup? l k = none) : setKey l k v = l ++ [(k, v)] := by
  induction l with
  | nil => simp [setKey]
  | cons p rest ih =>
    by_cases hk : p.1 = k
    · simp [lookup?, hk] at h
    · simp [lookup?, hk] at h
      simp [setKey, hk, ih h]

theorem mem_keys_of_lookup? {κ α : Type} [DecidableEq κ] (l : List (κ × α)) (k : κ) (v : α)
    (h : lookup? l k = some v) : k ∈ l.map (fun p => p.1) := by
  induction l with
  | nil => simp [lookup?] at h
  | cons p rest ih =>
    by_cases hk : p.1 = k
    · simp [hk]
    · simp [lookup?, hk] at h
      simpa using Or.inr (ih h)

-- ── C4: ensureDayEntry ──

/-- C4: `ensureDayEntry` returns the state unchanged when an entry for the
date exists; otherwise it only extends `days` with a fresh entry mapping
every enabled basic to `false`, with empty completions, empty goal counts
and empty reflection; applying it twice equals applying it once. -/
theorem ensureDayEntry_spec (state : AppState) (date : Int) :
    (∀ e, lookup? state.days date = some e → ensureDayEntry state date = state) ∧
    (lookup? state.days date = none →
      ensureDayEntry state date
        = { state with
            days :=
              state.days
                ++ [(date,
                    { basics := state.enabledBasics.map (fun id => (id, false))
                      completions := []
                      monthlyGoalCompletions := []
                      reflection := "" })] }) ∧
    ensureDayEntry (ensureDayEntry state date) date = ensureDayEntry state date := by
  refine ⟨fun e he => ?_, fun hn => ?_, ?_⟩
  · simp [ensureDayEntry, he]
  · simp [ensureDayEntry, hn, setKey_eq_append state.days date _ hn]
  · cases hl : lookup? state.days date with
    | some e => simp [ensureDayEntry, hl]
    | none => simp [ensureDayEntry, hl, lookup?_setKey_self]

/-- Witness for C4 at a concrete state: the fresh-insert shape on the
default state, and idempotence there. -/
theorem ensureDayEntry_spec_witness :
    ensureDayEntry (getDefaultState "en") 3
      = { getDefaultState "en" with
          days :=
            [(3,
              { basics := (getDefaultState "en").enabledBasics.map (fun id => (id, false))
                completions := []
                monthlyGoalCompletions := []
                reflection := "" })] } ∧
    ensureDayEntry (ensureDayEntry (getDefaultState "en") 3) 3
      = ensureDayEntry (getDefaultState "en") 3 := by
  refine ⟨?_, (ensureDayEntry_spec (getDefaultState "en") 3).2.2⟩
  have h := (ensureDayEntry_spec (getDefaultState "en") 3).2.1 (by decide)
  simpa using h

-- ── C8: addHabit / addMonthlyGoal ──

/-- C8: `addHabit` and `addMonthlyGoal` are no-ops when an element with
the same id is present, append at the end otherwise, leave the length
unchanged when called twice with the same id, and preserve distinctness
of ids. -/
theorem addHabit_addMonthlyGoal_spec (state : AppState) (habit : DailyHabit)
    (goal : MonthlyGoal) :
    ((∃ h ∈ state.dailyHabits, h.id = habit.id) → addHabit state habit = state) ∧
    ((¬ ∃ h ∈ state.dailyHabits, h.id = habit.id) →
      addHabit state habit = { state with dailyHabits := state.dailyHabits ++ [habit] }) ∧
    (addHabit (addHabit state habit) habit).dailyHabits.length
      = (addHabit state habit).dailyHabits.length ∧
    ((state.dailyHabits.map (fun h => h.id)).Nodup →
      ((addHabit state habit).dailyHabits.map (fun h => h.id)).Nodup) ∧
    ((∃ g ∈ state.monthlyGoals, g.id = goal.id) → addMonthlyGoal state goal = state) ∧
    ((¬ ∃ g ∈ state.monthlyGoals, g.id = goal.id) →
      addMonthlyGoal state goal
        = { state with monthlyGoals := state.monthlyGoals ++ [goal] }) ∧
    (addMonthlyGoal (addMonthlyGoal state goal) goal).monthlyGoals.length
      = (addMonthlyGoal state goal).monthlyGoals.length ∧
    ((state.monthlyGoals.map (fun g => g.id)).Nodup →
      ((addMonthlyGoal state goal).monthlyGoals.map (fun g => g.id)).Nodup) := by
  have hmemH : state.dailyHabits.any (fun h => h.id == habit.id) = true
      ↔ ∃ h ∈ state.dailyHabits, h.id = habit.id := by
    simp [List.any_eq_true]
  have hmemG : state.monthlyGoals.any (fun g => g.id == goal.id) = true
      ↔ ∃ g ∈ state.monthlyGoals, g.id = goal.id := by
    simp [List.any_eq_true]
  refine ⟨fun h => ?_, fun h => ?_, ?_, fun h => ?_, fun h => ?_, fun h => ?_, ?_, fun h => ?_⟩
  · simp [addHabit, hmemH.mpr h]
  · rw [addHabit, if_neg]
    simp only [ne_eq, hmemH]
    exact h
  · by_cases h : state.dailyHabits.any (fun h => h.id == habit.id) = true
    · simp [addHabit, h]
    · have h2 : (state.dailyHabits ++ [habit]).any (fun h => h.id == habit.id) = true := by
        simp [List.any_append]
      simp [addHabit, h, h2]
  · by_cases hmem : state.dailyHabits.any (fun h => h.id == habit.id) = true
    · simpa [addHabit, hmem] using h
    · have hnot : habit.id ∉ state.dailyHabits.map (fun h => h.id) := by
        simp only [List.any_eq_true] at hmem
        simp only [List.mem_map]
        rintro ⟨x, hx, hxid⟩
        exact hmem ⟨x, hx, by simp [hxid]⟩
      have hrw : addHabit state habit
          = { state with dailyHabits := state.dailyHabits ++ [habit] } := by
        rw [addHabit, if_neg hmem]
      rw [hrw]
      simp only [List.map_append, List.map_cons, List.map_nil]
      exact (List.nodup_append.mpr ⟨h, List.nodup_singleton _, by simpa using hnot⟩)
  · simp [addMonthlyGoal, hmemG.mpr h]
  · rw [addMonthlyGoal, if_neg]
    simp only [ne_eq, hmemG]
    exact h
  · by_cases h : state.monthlyGoals.any (fun g => g.id == goal.id) = true
    · simp [addMonthlyGoal, h]
    · have h2 : (state.monthlyGoals ++ [goal]).any (fun g => g.id == goal.id) = true := by
        simp [List.any_append]
      simp [addMonthlyGoal, h, h2]
  · by_cases hmem : state.monthlyGoals.any (fun g => g.id == goal.id) = true
    · simpa [addMonthlyGoal, hmem] using h
    · have hnot : goal.id ∉ state.monthlyGoals.map (fun g => g.id) := by
        simp only [List.any_eq_true] at hmem
        simp only [List.mem_map]
        rintro ⟨x, hx, hxid⟩
        exact hmem ⟨x, hx, by simp [hxid]⟩
      have hrw : addMonthlyGoal state goal
          = { state with monthlyGoals := state.monthlyGoals ++ [goal] } := by
        rw [addMonthlyGoal, if_neg hmem]
      rw [hrw]
      simp only [List.map_append, List.map_cons, List.map_nil]
      exact (List.nodup_append.mpr ⟨h, List.nodup_singleton _, by simpa using hnot⟩)

/-- Concrete habit used by witnesses (the `quran-read` gallery entry as
`galleryToHabit` would produce it at a fixed timestamp). -/
def exHabit : DailyHabit :=
  { id := "quran-read"
    titleKey := "gallery.quran_read.title"
    descriptionKey := "gallery.quran_read.desc"
    category := "quran"
    iconName := some "book-open"
    target := some 5
    unitKey := some "units.pages"
    source := "gallery"
    enabled := true
    addedAt := "2026-02-18T00:00:00.000Z" }

/-- Concrete goal used by witnesses: the `monthly-charity` gallery item
converted with target 5. -/
def exGoal : MonthlyGoal :=
  { id := "monthly-charity"
    titleKey := "monthly.charity"
    titleAr := "صدقة كبيرة"
    descriptionKey := "monthly.charity_desc"
    descriptionAr := "تبرع بمبلغ كبير أو كفالة يتيم أو إطعام عائلات"
    iconName := "heart-handshake"
    category := "charity"
    target := 5
    source := "gallery" }

/-- Witness for C8: adding the same habit and goal twice to the default
state keeps one copy each, and ids stay distinct. -/
theorem addHabit_addMonthlyGoal_spec_witness :
    (addHabit (getDefaultState "en") exHabit).dailyHabits = [exHabit] ∧
    (addHabit (addHabit (getDefaultState "en") exHabit) exHabit).dailyHabits.length
      = (addHabit (getDefaultState "en") exHabit).dailyHabits.length ∧
    (addMonthlyGoal (getDefaultState "en") exGoal).monthlyGoals = [exGoal] ∧
    ((addMonthlyGoal (getDefaultState "en") exGoal).monthlyGoals.map
      (fun g => g.id)).Nodup := by
  have h := addHabit_addMonthlyGoal_spec (getDefaultState "en") exHabit exGoal
  refine ⟨?_, h.2.2.1, ?_, h.2.2.2.2.2.2.2 (by decide)⟩
  · have hh := h.2.1 (by decide)
    rw [hh]
    rfl
  · have hg := h.2.2.2.2.2.1 (by decide)
    rw [hg]
    rfl

-- ── C1 / C2: getDayStats ──

theorem flScaleF_ge (fuel : ℕ) :
    ∀ N D : ℕ, 2 ^ 52 * D ≤ N * 2 ^ fuel → 2 ^ 52 * D ≤ N * 2 ^ flScaleF fuel N D := by
  induction fuel with
  | zero =>
    intro N D h
    simpa [flScaleF] using h
  | succ fuel ih =>
    intro N D h
    by_cases h0 : 2 ^ 52 * D ≤ N
    · have hz : flScaleF (fuel + 1) N D = 0 := by
        simp only [flScaleF]
        rw [if_pos h0]
      rw [hz]
      simpa using h0
    · have hpre : 2 ^ 52 * D ≤ 2 * N * 2 ^ fuel := by
        calc 2 ^ 52 * D ≤ N * 2 ^ (fuel + 1) := h
          _ = 2 * N * 2 ^ fuel := by ring
      have hrec := ih (2 * N) D hpre
      have hs : flScaleF (fuel + 1) N D = flScaleF fuel (2 * N) D + 1 := by
        simp only [flScaleF]
        rw [if_neg h0]
      rw [hs]
      calc 2 ^ 52 * D ≤ 2 * N * 2 ^ flScaleF fuel (2 * N) D := hrec
        _ = N * 2 ^ (flScaleF fuel (2 * N) D + 1) := by ring

theorem flScale_ge (N D : ℕ) (hN : 0 < N) : 2 ^ 52 * D ≤ N * 2 ^ flScale N D := by
  apply flScaleF_ge
  calc 2 ^ 52 * D ≤ 2 ^ 52 * 2 ^ (D + 1) := by
        have hD : D ≤ 2 ^ (D + 1) :=
          le_trans (le_of_lt (Nat.lt_two_pow D)) (Nat.pow_le_pow_right (by norm_num) (Nat.le_succ D))
        exact Nat.mul_le_mul_left _ hD
    _ = 2 ^ (53 + D) := by
        rw [← pow_add]
        congr 1
        omega
    _ ≤ N * 2 ^ (53 + D) := Nat.le_mul_of_pos_left _ hN

theorem rneNat_floor_case (N D : ℕ) : 2 * D * (N / D) ≤ 2 * N + D :=
  calc 2 * D * (N / D) = 2 * (N / D * D) := by ring
    _ ≤ 2 * N := Nat.mul_le_mul_left 2 (Nat.div_mul_le_self N D)
    _ ≤ 2 * N + D := Nat.le_add_right _ _

theorem rneNat_ceil_case (N D : ℕ) (hle : D ≤ 2 * (N % D)) :
    2 * D * (N / D + 1) ≤ 2 * N + D := by
  have key := Nat.div_add_mod N D
  have h2D : 2 * D ≤ 2 * (N % D) + D := by omega
  calc 2 * D * (N / D + 1) = 2 * (D * (N / D)) + 2 * D := by ring
    _ ≤ 2 * (D * (N / D)) + (2 * (N % D) + D) := Nat.add_le_add_left h2D _
    _ = 2 * (D * (N / D) + N % D) + D := by ring
    _ = 2 * N + D := by rw [key]

theorem rneNat_le (N D : ℕ) (_hD : 0 < D) : 2 * D * rneNat N D ≤ 2 * N + D := by
  unfold rneNat
  by_cases h1 : 2 * (N % D) < D
  · simp only [if_pos h1]
    exact rneNat_floor_case N D
  · by_cases h2 : D < 2 * (N % D)
    · simp only [if_neg h1, if_pos h2]
      exact rneNat_ceil_case N D (le_of_lt h2)
    · by_cases h3 : N / D % 2 = 0
      · simp only [if_neg h1, if_neg h2, if_pos h3]
        exact rneNat_floor_case N D
      · simp only [if_neg h1, if_neg h2, if_neg h3]
        exact rneNat_ceil_case N D (by omega)

theorem rneNat_ge_floor_case (N D : ℕ) (hle : 2 * (N % D) ≤ D) :
    2 * N ≤ 2 * D * (N / D) + D := by
  have key := Nat.div_add_mod N D
  calc 2 * N = 2 * (D * (N / D) + N % D) := by rw [key]
    _ = 2 * (D * (N / D)) + 2 * (N % D) := by ring
    _ ≤ 2 * (D * (N / D)) + D := Nat.add_le_add_left hle _
    _ = 2 * D * (N / D) + D := by ring

theorem rneNat_ge_ceil_case (N D : ℕ) (hr : N % D < D) :
    2 * N ≤ 2 * D * (N / D + 1) + D := by
  have key := Nat.div_add_mod N D
  have h2r : 2 * (N % D) ≤ 2 * D + D := by omega
  calc 2 * N = 2 * (D * (N / D) + N % D) := by rw [key]
    _ = 2 * (D * (N / D)) + 2 * (N % D) := by ring
    _ ≤ 2 * (D * (N / D)) + (2 * D + D) := Nat.add_le_add_left h2r _
    _ = 2 * D * (N / D + 1) + D := by ring

theorem rneNat_ge (N D : ℕ) (hD : 0 < D) : 2 * N ≤ 2 * D * rneNat N D + D := by
  have hr : N % D < D := Nat.mod_lt _ hD
  unfold rneNat
  by_cases h1 : 2 * (N % D) < D
  · simp only [if_pos h1]
    exact rneNat_ge_floor_case N D (le_of_lt h1)
  · by_cases h2 : D < 2 * (N % D)
    · simp only [if_neg h1, if_pos h2]
      exact rneNat_ge_ceil_case N D hr
    · by_cases h3 : N / D % 2 = 0
      · simp only [if_neg h1, if_neg h2, if_pos h3]
        exact rneNat_ge_floor_case N D (by omega)
      · simp only [if_neg h1, if_neg h2, if_neg h3]
        exact rneNat_ge_ceil_case N D hr

theorem flPos_nat_le (N D : ℕ) (hN : 0 < N) (hD : 0 < D) :
    2 ^ 53 * (D * (flPos N D).1) ≤ N * 2 ^ (flPos N D).2 * (2 ^ 53 + 1) := by
  have h1 := rneNat_le (N * 2 ^ flScale N D) D hD
  have h2 := flScale_ge N D hN
  have h1' := Nat.mul_le_mul_left (2 ^ 52) h1
  show 2 ^ 53 * (D * rneNat (N * 2 ^ flScale N D) D) ≤ N * 2 ^ flScale N D * (2 ^ 53 + 1)
  nlinarith [h1', h2]

theorem flPos_nat_ge (N D : ℕ) (hN : 0 < N) (hD : 0 < D) :
    N * 2 ^ (flPos N D).2 * 2 ^ 53 ≤ 2 ^ 53 * (D * (flPos N D).1) + N * 2 ^ (flPos N D).2 := by
  have h1 := rneNat_ge (N * 2 ^ flScale N D) D hD
  have h2 := flScale_ge N D hN
  have h1' := Nat.mul_le_mul_left (2 ^ 52) h1
  show N * 2 ^ flScale N D * 2 ^ 53
      ≤ 2 ^ 53 * (D * rneNat (N * 2 ^ flScale N D) D) + N * 2 ^ flScale N D
  nlinarith [h1', h2]

theorem flPos_fst_pos (N D : ℕ) (hN : 0 < N) (hD : 0 < D) : 0 < (flPos N D).1 := by
  by_contra h
  have hm : (flPos N D).1 = 0 := by omega
  have hge := flPos_nat_ge N D hN hD
  rw [hm] at hge
  have hX : 0 < N * 2 ^ (flPos N D).2 := by positivity
  nlinarith

theorem flPos_le (N D : ℕ) (hN : 0 < N) (hD : 0 < D) :
    ((flPos N D).1 : ℚ) / 2 ^ (flPos N D).2
      ≤ (N : ℚ) / D * ((2 ^ 53 + 1) / 2 ^ 53) := by
  have h := flPos_nat_le N D hN hD
  have hq : ((2:ℚ) ^ 53 * (D * (flPos N D).1) : ℚ)
      ≤ (N : ℚ) * 2 ^ (flPos N D).2 * (2 ^ 53 + 1) := by
    exact_mod_cast h
  rw [div_mul_div_comm, div_le_div_iff₀ (by positivity) (by positivity)]
  nlinarith [hq]

theorem flPos_ge (N D : ℕ) (hN : 0 < N) (hD : 0 < D) :
    (N : ℚ) / D * ((2 ^ 53 - 1) / 2 ^ 53) ≤ ((flPos N D).1 : ℚ) / 2 ^ (flPos N D).2 := by
  have h := flPos_nat_ge N D hN hD
  have hq : ((N : ℚ) * 2 ^ (flPos N D).2 * 2 ^ 53 : ℚ)
      ≤ 2 ^ 53 * (D * (flPos N D).1) + (N : ℚ) * 2 ^ (flPos N D).2 := by
    exact_mod_cast h
  rw [div_mul_div_comm, div_le_div_iff₀ (by positivity) (by positivity)]
  nlinarith [hq]

theorem jsVal_bounds (a b : ℕ) (ha : 0 < a) (hb : 0 < b) :
    (a : ℚ) / b * 100 * (((2:ℚ) ^ 53 - 1) / 2 ^ 53) ^ 2
        ≤ ((flPos (100 * (flPos a b).1) (2 ^ (flPos a b).2)).1 : ℚ)
          / 2 ^ (flPos (100 * (flPos a b).1) (2 ^ (flPos a b).2)).2
    ∧ ((flPos (100 * (flPos a b).1) (2 ^ (flPos a b).2)).1 : ℚ)
          / 2 ^ (flPos (100 * (flPos a b).1) (2 ^ (flPos a b).2)).2
        ≤ (a : ℚ) / b * 100 * (((2:ℚ) ^ 53 + 1) / 2 ^ 53) ^ 2 := by
  have hm1 := flPos_fst_pos a b ha hb
  have hs1 : 0 < 2 ^ (flPos a b).2 := Nat.pos_pow_of_pos _ (by norm_num)
  have hN2 : 0 < 100 * (flPos a b).1 := by positivity
  have h1le := flPos_le a b ha hb
  have h1ge := flPos_ge a b ha hb
  have h2le := flPos_le (100 * (flPos a b).1) (2 ^ (flPos a b).2) hN2 hs1
  have h2ge := flPos_ge (100 * (flPos a b).1) (2 ^ (flPos a b).2) hN2 hs1
  have hx : ((100 * (flPos a b).1 : ℕ) : ℚ) / ((2 ^ (flPos a b).2 : ℕ) : ℚ)
      = 100 * (((flPos a b).1 : ℚ) / 2 ^ (flPos a b).2) := by
    push_cast
    ring
  rw [hx] at h2le h2ge
  have hq0 : (0:ℚ) ≤ (a : ℚ) / b := by positivity
  have hv0 : (0:ℚ) ≤ ((flPos a b).1 : ℚ) / 2 ^ (flPos a b).2 := by positivity
  constructor
  · calc (a : ℚ) / b * 100 * (((2:ℚ) ^ 53 - 1) / 2 ^ 53) ^ 2
        = (a : ℚ) / b * (((2:ℚ) ^ 53 - 1) / 2 ^ 53) * 100 * (((2:ℚ) ^ 53 - 1) / 2 ^ 53) := by
          ring
      _ ≤ ((flPos a b).1 : ℚ) / 2 ^ (flPos a b).2 * 100 * (((2:ℚ) ^ 53 - 1) / 2 ^ 53) := by
          have hmul : (0:ℚ) ≤ 100 * (((2:ℚ) ^ 53 - 1) / 2 ^ 53) := by norm_num
          nlinarith [h1ge, hmul]
      _ = 100 * (((flPos a b).1 : ℚ) / 2 ^ (flPos a b).2) * (((2:ℚ) ^ 53 - 1) / 2 ^ 53) := by
          ring
      _ ≤ _ := h2ge
  · calc ((flPos (100 * (flPos a b).1) (2 ^ (flPos a b).2)).1 : ℚ)
          / 2 ^ (flPos (100 * (flPos a b).1) (2 ^ (flPos a b).2)).2
        ≤ 100 * (((flPos a b).1 : ℚ) / 2 ^ (flPos a b).2) * (((2:ℚ) ^ 53 + 1) / 2 ^ 53) :=
          h2le
      _ ≤ 100 * ((a : ℚ) / b * ((2 ^ 53 + 1) / 2 ^ 53)) * (((2:ℚ) ^ 53 + 1) / 2 ^ 53) := by
          have hmul : (0:ℚ) ≤ 100 * (((2:ℚ) ^ 53 + 1) / 2 ^ 53) := by norm_num
          nlinarith [h1le, hmul]
      _ = (a : ℚ) / b * 100 * (((2:ℚ) ^ 53 + 1) / 2 ^ 53) ^ 2 := by
          ring

theorem roundHalf_div (m s : ℕ) :
    (((2 * m + 2 ^ s) / 2 ^ (s + 1) : ℕ) : ℤ) = ⌊((m : ℚ) / 2 ^ s) + 1 / 2⌋ := by
  have hs : ((2:ℚ)) ^ s ≠ 0 := by positivity
  have harg : ((m : ℚ) / 2 ^ s) + 1 / 2
      = (((2 * m + 2 ^ s : ℕ) : ℤ) : ℚ) / ((2 ^ (s + 1) : ℕ) : ℚ) := by
    push_cast
    field_simp
    ring
  rw [harg, Rat.floor_intCast_div_natCast]
  exact Int.natCast_ediv (2 * m + 2 ^ s) (2 ^ (s + 1))

theorem abs_floor_sub_le_one (u v : ℚ) (h : |u - v| ≤ 1 / 2) : |⌊u⌋ - ⌊v⌋| ≤ 1 := by
  rw [abs_le] at h
  have h1 : (⌊u⌋ : ℚ) ≤ u := Int.floor_le u
  have h2 : u < ⌊u⌋ + 1 := Int.lt_floor_add_one u
  have h3 : (⌊v⌋ : ℚ) ≤ v := Int.floor_le v
  have h4 : v < ⌊v⌋ + 1 := Int.lt_floor_add_one v
  rw [abs_le]
  constructor
  · have hq : (⌊v⌋ : ℚ) < (⌊u⌋ : ℚ) + 2 := by linarith
    have hz : ⌊v⌋ < ⌊u⌋ + 2 := by exact_mod_cast hq
    omega
  · have hq : (⌊u⌋ : ℚ) < (⌊v⌋ : ℚ) + 2 := by linarith
    have hz : ⌊u⌋ < ⌊v⌋ + 2 := by exact_mod_cast hq
    omega

theorem jsPercent_le_100 (a b : ℕ) (hab : a ≤ b) (hb : 0 < b) : jsPercent a b ≤ 100 := by
  by_cases ha : a = 0
  · simp [jsPercent, ha]
  · have ha' : 0 < a := Nat.pos_of_ne_zero ha
    have hbq : (0:ℚ) < b := by exact_mod_cast hb
    have hq1 : (a : ℚ) / b ≤ 1 := by
      rw [div_le_one hbq]
      exact_mod_cast hab
    have hq0 : (0:ℚ) ≤ (a : ℚ) / b := by positivity
    have hhi := (jsVal_bounds a b ha' hb).2
    have hlam : (0:ℚ) ≤ (((2:ℚ) ^ 53 + 1) / 2 ^ 53) ^ 2 := by positivity
    have hv2 : ((flPos (100 * (flPos a b).1) (2 ^ (flPos a b).2)).1 : ℚ)
        / 2 ^ (flPos (100 * (flPos a b).1) (2 ^ (flPos a b).2)).2 ≤ 401 / 4 := by
      have hlit : (100:ℚ) * (((2:ℚ) ^ 53 + 1) / 2 ^ 53) ^ 2 ≤ 401 / 4 := by norm_num
      nlinarith [hhi, hlam, hq1, hq0]
    have hfloor := roundHalf_div (flPos (100 * (flPos a b).1) (2 ^ (flPos a b).2)).1
      (flPos (100 * (flPos a b).1) (2 ^ (flPos a b).2)).2
    have h101 : (((2 * (flPos (100 * (flPos a b).1) (2 ^ (flPos a b).2)).1
          + 2 ^ (flPos (100 * (flPos a b).1) (2 ^ (flPos a b).2)).2)
        / 2 ^ ((flPos (100 * (flPos a b).1) (2 ^ (flPos a b).2)).2 + 1) : ℕ) : ℤ) < 101 := by
      rw [hfloor]
      have hlt : ((flPos (100 * (flPos a b).1) (2 ^ (flPos a b).2)).1 : ℚ)
          / 2 ^ (flPos (100 * (flPos a b).1) (2 ^ (flPos a b).2)).2 + 1 / 2 < 101 := by
        linarith
      exact Int.floor_lt.mpr (by exact_mod_cast hlt)
    have hnat : (2 * (flPos (100 * (flPos a b).1) (2 ^ (flPos a b).2)).1
          + 2 ^ (flPos (100 * (flPos a b).1) (2 ^ (flPos a b).2)).2)
        / 2 ^ ((flPos (100 * (flPos a b).1) (2 ^ (flPos a b).2)).2 + 1) < 101 := by
      exact_mod_cast h101
    simp only [jsPercent, if_neg ha]
    omega

theorem jsPercent_round_close (a b : ℕ) (hab : a ≤ b) (hb : 0 < b) :
    |(jsPercent a b : ℤ) - round ((100 * (a : ℚ)) / b)| ≤ 1 := by
  by_cases ha : a = 0
  · simp [jsPercent, ha]
  · have ha' : 0 < a := Nat.pos_of_ne_zero ha
    have hbq : (0:ℚ) < b := by exact_mod_cast hb
    have hq1 : (a : ℚ) / b ≤ 1 := by
      rw [div_le_one hbq]
      exact_mod_cast hab
    have hq0 : (0:ℚ) ≤ (a : ℚ) / b := by positivity
    obtain ⟨hlo, hhi⟩ := jsVal_bounds a b ha' hb
    have hperc : (jsPercent a b : ℤ)
        = ⌊(((flPos (100 * (flPos a b).1) (2 ^ (flPos a b).2)).1 : ℚ)
            / 2 ^ (flPos (100 * (flPos a b).1) (2 ^ (flPos a b).2)).2) + 1 / 2⌋ := by
      rw [show jsPercent a b = (2 * (flPos (100 * (flPos a b).1) (2 ^ (flPos a b).2)).1
            + 2 ^ (flPos (100 * (flPos a b).1) (2 ^ (flPos a b).2)).2)
          / 2 ^ ((flPos (100 * (flPos a b).1) (2 ^ (flPos a b).2)).2 + 1) by
        simp [jsPercent, ha]]
      exact roundHalf_div _ _
    have hround : round ((100 * (a : ℚ)) / b) = ⌊(a : ℚ) / b * 100 + 1 / 2⌋ := by
      rw [round_eq]
      congr 1
      ring_nf
    rw [hperc, hround]
    apply abs_floor_sub_le_one
    rw [abs_le]
    have hup : (100:ℚ) * ((a : ℚ) / b) * ((((2:ℚ) ^ 53 + 1) / 2 ^ 53) ^ 2 - 1) ≤ 1 / 2 := by
      have hlit : (100:ℚ) * ((((2:ℚ) ^ 53 + 1) / 2 ^ 53) ^ 2 - 1) ≤ 1 / 2 := by norm_num
      nlinarith [hq1, hq0]
    have hdn : (100:ℚ) * ((a : ℚ) / b) * (1 - (((2:ℚ) ^ 53 - 1) / 2 ^ 53) ^ 2) ≤ 1 / 2 := by
      have hlit : (100:ℚ) * (1 - (((2:ℚ) ^ 53 - 1) / 2 ^ 53) ^ 2) ≤ 1 / 2 := by norm_num
      nlinarith [hq1, hq0]
    constructor
    · nlinarith [hlo]
    · nlinarith [hhi]

/-- C1 (amended): the percent of `getDayStats` is 0 when the date has no
entry (with `basicsDone = 0`), 100 when an entry exists but there are no
enabled basics and no enabled daily habits, and otherwise the ECMA
`Math.round` of the binary64 evaluation of
`(basicsDone + dailyDone) / (basicsTotal + dailyTotal) * 100`
(`jsPercent`), where the totals count only currently-enabled basics and
currently-enabled habits; that value is within 1 of the exact rational
rounding `round(100 * done / total)` (and can differ from it at
double-rounding boundaries, see `getDayStats_round_counterexample`). -/
theorem getDayStats_spec (state : AppState) (date : Int) :
    (getDayStats state date).basicsTotal = state.enabledBasics.length ∧
    (lookup? state.days date = none →
      (getDayStats state date).percent = 0 ∧ (getDayStats state date).basicsDone = 0 ∧
      (getDayStats state date).dailyTotal = 0) ∧
    (lookup? state.days date ≠ none →
      (getDayStats state date).dailyTotal
        = (state.dailyHabits.filter (fun h => h.enabled)).length) ∧
    (lookup? state.days date ≠ none →
      (getDayStats state date).basicsTotal + (getDayStats state date).dailyTotal = 0 →
      (getDayStats state date).percent = 100) ∧
    (lookup? state.days date ≠ none →
      0 < (getDayStats state date).basicsTotal + (getDayStats state date).dailyTotal →
      (getDayStats state date).percent
          = jsPercent
            ((getDayStats state date).basicsDone + (getDayStats state date).dailyDone)
            ((getDayStats state date).basicsTotal + (getDayStats state date).dailyTotal)
        ∧ |((getDayStats state date).percent : ℤ)
            - round ((100 * (((getDayStats state date).basicsDone : ℚ)
                  + ((getDayStats state date).dailyDone : ℚ)))
                / (((getDayStats state date).basicsTotal : ℚ)
                  + ((getDayStats state date).dailyTotal : ℚ)))| ≤ 1) := by
  cases hl : lookup? state.days date with
  | none =>
    exact ⟨by simp [getDayStats, hl], fun _ => by simp [getDayStats, hl],
      fun hne => absurd rfl hne, fun hne => absurd rfl hne, fun hne => absurd rfl hne⟩
  | some entry =>
    refine ⟨by simp [getDayStats, hl], fun h => by simp at h, fun _ => ?_,
      fun _ h0 => ?_, fun _ hpos => ?_⟩
    · simp [getDayStats, hl]
    · have h0' : state.enabledBasics.length
          + (state.dailyHabits.filter (fun h => h.enabled)).length = 0 := by
        simpa [getDayStats, hl] using h0
      simp [getDayStats, hl, h0']
    · have hpos' : 0 < state.enabledBasics.length
          + (state.dailyHabits.filter (fun h => h.enabled)).length := by
        simpa [getDayStats, hl] using hpos
      have hbdE : (getDayStats state date).basicsDone
          = (state.enabledBasics.filter
              (fun id => lookup? entry.basics id == some true)).length := by
        simp [getDayStats, hl]
      have hddE : (getDayStats state date).dailyDone
          = ((state.dailyHabits.filter (fun h => h.enabled)).filter
              (fun h => (lookup? entry.completions h.id).getD false)).length := by
        simp [getDayStats, hl]
      have hbtE : (getDayStats state date).basicsTotal = state.enabledBasics.length := by
        simp [getDayStats, hl]
      have hdtE : (getDayStats state date).dailyTotal
          = (state.dailyHabits.filter (fun h => h.enabled)).length := by
        simp [getDayStats, hl]
      have hab : (state.enabledBasics.filter
              (fun id => lookup? entry.basics id == some true)).length
            + ((state.dailyHabits.filter (fun h => h.enabled)).filter
              (fun h => (lookup? entry.completions h.id).getD false)).length
          ≤ state.enabledBasics.length
            + (state.dailyHabits.filter (fun h => h.enabled)).length := by
        have hbdle := List.length_filter_le
          (fun id => lookup? entry.basics id == some true) state.enabledBasics
        have hddle := List.length_filter_le
          (fun h => (lookup? entry.completions h.id).getD false)
          (state.dailyHabits.filter (fun h => h.enabled))
        omega
      constructor
      · simp [getDayStats, hl, hpos']
      · have hclose := jsPercent_round_close
          ((state.enabledBasics.filter
              (fun id => lookup? entry.basics id == some true)).length
            + ((state.dailyHabits.filter (fun h => h.enabled)).filter
              (fun h => (lookup? entry.completions h.id).getD false)).length)
          (state.enabledBasics.length
            + (state.dailyHabits.filter (fun h => h.enabled)).length)
          hab hpos'
        have hpercE : (getDayStats state date).percent
            = jsPercent
              ((state.enabledBasics.filter
                  (fun id => lookup? entry.basics id == some true)).length
                + ((state.dailyHabits.filter (fun h => h.enabled)).filter
                  (fun h => (lookup? entry.completions h.id).getD false)).length)
              (state.enabledBasics.length
                + (state.dailyHabits.filter (fun h => h.enabled)).length) := by
          simp [getDayStats, hl, hpos']
        rw [hpercE, hbdE, hddE, hbtE, hdtE]
        have harg : (100 * ((((state.enabledBasics.filter
                (fun id => lookup? entry.basics id == some true)).length : ℕ) : ℚ)
              + ((((state.dailyHabits.filter (fun h => h.enabled)).filter
                (fun h => (lookup? entry.completions h.id).getD false)).length : ℕ) : ℚ)))
            / (((state.enabledBasics.length : ℕ) : ℚ)
              + (((state.dailyHabits.filter (fun h => h.enabled)).length : ℕ) : ℚ))
            = (100 * (((state.enabledBasics.filter
                  (fun id => lookup? entry.basics id == some true)).length
                + ((state.dailyHabits.filter (fun h => h.enabled)).filter
                  (fun h => (lookup? entry.completions h.id).getD false)).length : ℕ) : ℚ))
            / ((state.enabledBasics.length
                + (state.dailyHabits.filter (fun h => h.enabled)).length : ℕ) : ℚ) := by
          push_cast
          ring
        rw [harg]
        exact hclose

/-- Concrete state for stats witnesses: the default state with one enabled
habit, and an entry on day 10 with all basics unchecked and the habit
checked (spec scenario: one done item of seven gives 14 percent). -/
def exDayState : AppState :=
  { getDefaultState "en" with
    dailyHabits := [exHabit]
    days :=
      [(10,
        { basics := ALL_BASIC_IDS.map (fun id => (id, false))
          completions := [("quran-read", true)]
          monthlyGoalCompletions := []
          reflection := "" })] }

/-- Witness for C1 at concrete states: a day with six unchecked basics and
one checked enabled habit follows the binary64 formula, lands within 1 of
the exact rounding, and evaluates to 14 percent; a date with no entry
yields percent 0. -/
theorem getDayStats_spec_witness :
    (getDayStats exDayState 10).percent
        = jsPercent
          ((getDayStats exDayState 10).basicsDone + (getDayStats exDayState 10).dailyDone)
          ((getDayStats exDayState 10).basicsTotal + (getDayStats exDayState 10).dailyTotal) ∧
    |((getDayStats exDayState 10).percent : ℤ)
        - round ((100 * (((getDayStats exDayState 10).basicsDone : ℚ)
              + ((getDayStats exDayState 10).dailyDone : ℚ)))
            / (((getDayStats exDayState 10).basicsTotal : ℚ)
              + ((getDayStats exDayState 10).dailyTotal : ℚ)))| ≤ 1 ∧
    (getDayStats exDayState 10).percent = 14 ∧
    (getDayStats exDayState 11).percent = 0 :=
  ⟨((getDayStats_spec exDayState 10).2.2.2.2 (by decide) (by decide)).1,
   ((getDayStats_spec exDayState 10).2.2.2.2 (by decide) (by decide)).2,
   by decide,
   ((getDayStats_spec exDayState 11).2.1 (by decide)).1⟩

/-- Thirty-four enabled custom habits, as users can add without limit. -/
def ex40Habits : List DailyHabit :=
  (List.range 34).map (fun i =>
    { id := "h" ++ toString i
      titleKey := "custom"
      descriptionKey := "custom"
      category := "dhikr"
      iconName := none
      target := none
      unitKey := none
      source := "custom"
      enabled := true
      addedAt := "2026-02-18T00:00:00.000Z" })

/-- A reachable state with 40 trackable items (6 enabled basics plus 34
enabled custom habits) whose day 1 has 23 of them done. -/
def ex40State : AppState :=
  { getDefaultState "en" with
    dailyHabits := ex40Habits
    days :=
      [(1,
        { basics := ALL_BASIC_IDS.map (fun id => (id, true))
          completions := (List.range 17).map (fun i => ("h" ++ toString i, true))
          monthlyGoalCompletions := []
          reflection := "" })] }

/-- Counterexample to C1 as stated: with 23 done of 40 trackable items the
program's percent is 57, while the claimed exact rounding
`round(100 * 23 / 40) = round(57.5)` is 58 — the engine computes
`(23 / 40) * 100` in binary64, where it falls just below 57.5. -/
theorem getDayStats_round_counterexample :
    (getDayStats ex40State 1).basicsDone + (getDayStats ex40State 1).dailyDone = 23 ∧
    (getDayStats ex40State 1).basicsTotal + (getDayStats ex40State 1).dailyTotal = 40 ∧
    (getDayStats ex40State 1).percent = 57 ∧
    round ((100 * (((getDayStats ex40State 1).basicsDone : ℚ)
          + ((getDayStats ex40State 1).dailyDone : ℚ)))
        / (((getDayStats ex40State 1).basicsTotal : ℚ)
          + ((getDayStats ex40State 1).dailyTotal : ℚ))) = 58 ∧
    ((getDayStats ex40State 1).percent : ℤ)
      ≠ round ((100 * (((getDayStats ex40State 1).basicsDone : ℚ)
            + ((getDayStats ex40State 1).dailyDone : ℚ)))
          / (((getDayStats ex40State 1).basicsTotal : ℚ)
            + ((getDayStats ex40State 1).dailyTotal : ℚ))) := by
  have hbd : (getDayStats ex40State 1).basicsDone = 6 := by decide
  have hdd : (getDayStats ex40State 1).dailyDone = 17 := by decide
  have hbt : (getDayStats ex40State 1).basicsTotal = 6 := by decide
  have hdt : (getDayStats ex40State 1).dailyTotal = 34 := by decide
  have hp : (getDayStats ex40State 1).percent = 57 := by decide
  have hround : round ((100 * (((6:ℕ) : ℚ) + ((17:ℕ) : ℚ)))
      / (((6:ℕ) : ℚ) + ((34:ℕ) : ℚ))) = 58 := by
    rw [round_eq]
    rw [show (100 * (((6:ℕ) : ℚ) + ((17:ℕ) : ℚ))) / (((6:ℕ) : ℚ) + ((34:ℕ) : ℚ)) + 1 / 2
        = ((58 : ℤ) : ℚ) by push_cast; norm_num]
    exact Int.floor_intCast 58
  refine ⟨by rw [hbd, hdd], by rw [hbt, hdt], hp, ?_, ?_⟩
  · rw [hbd, hdd, hbt, hdt]
    exact hround
  · rw [hp, hbd, hdd, hbt, hdt, hround]
    decide

/-- C2: the derived percentage of a day is always between 0 and 100. -/
theorem getDayStats_percent_bounds (state : AppState) (date : Int) :
    0 ≤ (getDayStats state date).percent ∧ (getDayStats state date).percent ≤ 100 := by
  refine ⟨Nat.zero_le _, ?_⟩
  cases hl : lookup? state.days date with
  | none => simp [getDayStats, hl]
  | some entry =>
    have hbd : (state.enabledBasics.filter
          (fun id => lookup? entry.basics id == some true)).length
        ≤ state.enabledBasics.length := List.length_filter_le _ _
    have hdd : ((state.dailyHabits.filter (fun h => h.enabled)).filter
          (fun h => (lookup? entry.completions h.id).getD false)).length
        ≤ (state.dailyHabits.filter (fun h => h.enabled)).length :=
      List.length_filter_le _ _
    simp only [getDayStats, hl]
    by_cases hpos : 0 < state.enabledBasics.length
        + (state.dailyHabits.filter (fun h => h.enabled)).length
    · simp only [hpos, if_true]
      exact jsPercent_le_100 _ _ (by omega) hpos
    · simp [hpos]

-- ── C7: getMonthlyGoalProgress ──

theorem progress_foldl_eq (goalId : String) (l : List (Int × DayEntry)) (c : Int) :
    l.foldl
      (fun count p =>
        match lookup? p.2.monthlyGoalCompletions goalId with
        | some (GoalVal.num n) => count + n
        | some (GoalVal.bool b) => if b then count + 1 else count
        | none => count)
      c
    = c + (l.map (fun p => getMonthlyGoalDayCount p.2 goalId)).sum := by
  induction l generalizing c with
  | nil => simp
  | cons p rest ih =>
    have hstep : (match lookup? p.2.monthlyGoalCompletions goalId with
        | some (GoalVal.num n) => c + n
        | some (GoalVal.bool b) => if b then c + 1 else c
        | none => c)
        = c + getMonthlyGoalDayCount p.2 goalId := by
      unfold getMonthlyGoalDayCount
      cases lookup? p.2.monthlyGoalCompletions goalId with
      | none => simp
      | some v =>
        cases v with
        | num n => simp
        | bool b => cases b <;> simp
    simp only [List.foldl_cons, List.map_cons, List.sum_cons, ih, hstep]
    ring

/-- Concrete state for the progress witness: one goal with target 5 and
per-day counts 2, 3, 4 across three dates. -/
def exProgressState : AppState :=
  { getDefaultState "en" with
    monthlyGoals := [exGoal]
    days :=
      [(1, { basics := [], completions := [],
             monthlyGoalCompletions := [("monthly-charity", GoalVal.num 2)],
             reflection := "" }),
       (2, { basics := [], completions := [],
             monthlyGoalCompletions := [("monthly-charity", GoalVal.num 3)],
             reflection := "" }),
       (3, { basics := [], completions := [],
             monthlyGoalCompletions := [("monthly-charity", GoalVal.num 4)],
             reflection := "" })] }

/-- C7: the progress of a monthly goal is the plain sum over all recorded
days of the per-day count (numbers count as themselves, a truthy legacy
boolean as 1); nothing caps it at the goal's target — with target 5 and
day counts 2, 3, 4 the progress is 9. -/
theorem getMonthlyGoalProgress_spec :
    (∀ (state : AppState) (goalId : String),
      getMonthlyGoalProgress state goalId
        = (state.days.map (fun p => getMonthlyGoalDayCount p.2 goalId)).sum) ∧
    getMonthlyGoalProgress exProgressState "monthly-charity" = 9 ∧
    exProgressState.monthlyGoals.map (fun g => g.target) = [5] := by
  refine ⟨fun state goalId => ?_, by decide, by decide⟩
  rw [getMonthlyGoalProgress, progress_foldl_eq]
  simp

-- ── C3 / C10: calculateStreak ──

/-- Day condition of the streak claim: the day has no trackable (enabled
daily) habits, or its percent is at least 50; and it has an entry, or it
is today. -/
def streakDayOk (state : AppState) (today date : Int) : Prop :=
  ((getDayStats state date).dailyTotal = 0 ∨ 50 ≤ (getDayStats state date).percent) ∧
  (lookup? state.days date ≠ none ∨ date = today)

theorem foldl_min_le (l : List Int) (init : Int) :
    l.foldl min init ≤ init ∧ ∀ k ∈ l, l.foldl min init ≤ k := by
  induction l generalizing init with
  | nil => simp
  | cons a l ih =>
    have h := ih (min init a)
    refine ⟨le_trans h.1 (min_le_left _ _), fun k hk => ?_⟩
    rcases List.mem_cons.mp hk with rfl | hk
    · exact le_trans h.1 (min_le_right _ _)
    · exact h.2 k hk

theorem earliestDay_le_today (state : AppState) (today : Int) :
    earliestDay state today ≤ today :=
  (foldl_min_le _ today).1

theorem lookup?_none_of_lt_earliest (state : AppState) (today : Int) :
    ∀ d : Int, d < earliestDay state today → lookup? state.days d = none := by
  intro d hd
  cases hl : lookup? state.days d with
  | none => rfl
  | some v =>
    have hmem := mem_keys_of_lookup? state.days d v hl
    have hle := (foldl_min_le (state.days.map fun p => p.1) today).2 d hmem
    exact absurd hle (by rw [earliestDay] at hd; omega)

theorem earliest_le_of_entry (state : AppState) (today d : Int)
    (h : lookup? state.days d ≠ none ∨ d = today) :
    earliestDay state today ≤ d := by
  rcases h with h | rfl
  · cases hl : lookup? state.days d with
    | none => exact absurd hl h
    | some v =>
      exact (foldl_min_le (state.days.map fun p => p.1) today).2 d
        (mem_keys_of_lookup? state.days d v hl)
  · exact earliestDay_le_today state d

theorem streakFuel_ok (state : AppState) (today : Int) :
    ∀ (fuel : Nat) (d : Int), (d + 1 - earliestDay state today).toNat ≤ fuel →
      ((∀ i : Nat, i < streakFuel state today fuel d →
          streakDayOk state today (d - (i : Int))) ∧
        ¬ streakDayOk state today (d - (streakFuel state today fuel d : Int))) := by
  intro fuel
  induction fuel with
  | zero =>
    intro d hm
    refine ⟨fun i hi => absurd hi (by simp [streakFuel]), fun hok => ?_⟩
    have hE := earliest_le_of_entry state today d (by simpa [streakFuel] using hok.2)
    omega
  | succ fuel ih =>
    intro d hm
    by_cases h1 : (getDayStats state d).percent < 50 ∧ 0 < (getDayStats state d).dailyTotal
    · have hz : streakFuel state today (fuel + 1) d = 0 := by
        simp [streakFuel, h1]
      rw [hz]
      exact ⟨fun i hi => absurd hi (by omega), fun hok => by
        rcases hok.1 with h | h <;> simp at h <;> omega⟩
    · by_cases h2 : lookup? state.days d = none ∧ d ≠ today
      · have hz : streakFuel state today (fuel + 1) d = 0 := by
          simp [streakFuel, h1, h2]
        rw [hz]
        refine ⟨fun i hi => absurd hi (by omega), fun hok => ?_⟩
        simp only [Nat.cast_zero, sub_zero] at hok
        rcases hok.2 with h | h
        · exact h h2.1
        · exact h2.2 h
      · have hE : earliestDay state today ≤ d := by
          apply earliest_le_of_entry state today d
          rcases not_and_or.mp h2 with h | h
          · exact Or.inl h
          · exact Or.inr (not_not.mp h)
        have hm' : (d - 1 + 1 - earliestDay state today).toNat ≤ fuel := by omega
        have hstep : streakFuel state today (fuel + 1) d
            = 1 + streakFuel state today fuel (d - 1) := by
          simp [streakFuel, h1, h2]
        have hih := ih (d - 1) hm'
        rw [hstep]
        constructor
        · intro i hi
          cases i with
          | zero =>
            simp only [Nat.cast_zero, sub_zero]
            refine ⟨?_, ?_⟩
            · rcases not_and_or.mp h1 with h | h
              · exact Or.inr (by omega)
              · exact Or.inl (by omega)
            · rcases not_and_or.mp h2 with h | h
              · exact Or.inl h
              · exact Or.inr (not_not.mp h)
          | succ j =>
            have hj : j < streakFuel state today fuel (d - 1) := by omega
            have := hih.1 j hj
            have harith : d - ((j + 1 : Nat) : Int) = d - 1 - (j : Int) := by
              push_cast
              ring
            rw [harith]
            exact this
        · have harith : d - ((1 + streakFuel state today fuel (d - 1) : Nat) : Int)
              = d - 1 - ((streakFuel state today fuel (d - 1) : Nat) : Int) := by
            push_cast
            ring
          rw [harith]
          exact hih.2

/-- C3: walking one day at a time backward from today, `calculateStreak`
counts exactly the consecutive days satisfying the streak condition
(no trackable daily habits, or percent at least 50; and recorded, or
today), and the first day past the count violates it: a day with
trackable habits below 50 percent, or a past day with no entry, breaks
the streak. -/
theorem calculateStreak_spec (state : AppState) (today : Int) :
    (∀ i : Nat, i < calculateStreak state today →
      streakDayOk state today (today - (i : Int))) ∧
    ¬ streakDayOk state today (today - ((calculateStreak state today : Nat) : Int)) :=
  streakFuel_ok state today (streakFuelBound state today) today
    (by rw [streakFuelBound]; omega)

/-- Witness for C3: on the fresh default state today is a vacuous pass
(no enabled habits, streak 1), and yesterday, unrecorded, breaks. -/
theorem calculateStreak_spec_witness :
    streakDayOk (getDefaultState "en") 0 (0 - ((0 : Nat) : Int)) ∧
    ¬ streakDayOk (getDefaultState "en") 0
      (0 - ((calculateStreak (getDefaultState "en") 0 : Nat) : Int)) :=
  ⟨(calculateStreak_spec (getDefaultState "en") 0).1 0 (by decide),
   (calculateStreak_spec (getDefaultState "en") 0).2⟩

theorem streakFuel_congr (state : AppState) (today : Int) :
    ∀ (f f' : Nat) (d : Int),
      (d + 1 - earliestDay state today).toNat ≤ f →
      (d + 1 - earliestDay state today).toNat ≤ f' →
      streakFuel state today f d = streakFuel state today f' d := by
  have hstop : ∀ (g : Nat) (d : Int), (d + 1 - earliestDay state today).toNat = 0 →
      streakFuel state today g d = 0 := by
    intro g d hm
    cases g with
    | zero => simp [streakFuel]
    | succ g =>
      have hnone : lookup? state.days d = none :=
        lookup?_none_of_lt_earliest state today d
          (by have := earliestDay_le_today state today; omega)
      have hne : d ≠ today := by
        have := earliestDay_le_today state today
        omega
      by_cases h1 : (getDayStats state d).percent < 50 ∧ 0 < (getDayStats state d).dailyTotal
      · simp [streakFuel, h1]
      · simp [streakFuel, h1, hnone, hne]
  intro f
  induction f with
  | zero =>
    intro f' d hm hm'
    rw [hstop f' d (by omega), hstop 0 d (by omega)]
  | succ f ih =>
    intro f' d hm hm'
    by_cases hz : (d + 1 - earliestDay state today).toNat = 0
    · rw [hstop _ d hz, hstop _ d hz]
    · cases f' with
      | zero => omega
      | succ f' =>
        by_cases h1 : (getDayStats state d).percent < 50 ∧ 0 < (getDayStats state d).dailyTotal
        · simp [streakFuel, h1]
        · by_cases h2 : lookup? state.days d = none ∧ d ≠ today
          · simp [streakFuel, h1, h2]
          · have hE : earliestDay state today ≤ d := by
              apply earliest_le_of_entry state today d
              rcases not_and_or.mp h2 with h | h
              · exact Or.inl h
              · exact Or.inr (not_not.mp h)
            have hrec := ih f' (d - 1) (by omega) (by omega)
            simp [streakFuel, h1, h2, hrec]

theorem streakFuel_le_bound (state : AppState) (today : Int) :
    ∀ (fuel : Nat) (d : Int), (d + 1 - earliestDay state today).toNat ≤ fuel →
      streakFuel state today fuel d ≤ (d + 1 - earliestDay state today).toNat := by
  intro fuel
  induction fuel with
  | zero => intro d hm; simp [streakFuel]
  | succ fuel ih =>
    intro d hm
    by_cases h1 : (getDayStats state d).percent < 50 ∧ 0 < (getDayStats state d).dailyTotal
    · simp [streakFuel, h1]
    · by_cases h2 : lookup? state.days d = none ∧ d ≠ today
      · simp [streakFuel, h1, h2]
      · have hE : earliestDay state today ≤ d := by
          apply earliest_le_of_entry state today d
          rcases not_and_or.mp h2 with h | h
          · exact Or.inl h
          · exact Or.inr (not_not.mp h)
        have hrec := ih (d - 1) (by omega)
        have hstep : streakFuel state today (fuel + 1) d
            = 1 + streakFuel state today fuel (d - 1) := by
          simp [streakFuel, h1, h2]
        omega

/-- C10: the backward walk of `calculateStreak` terminates: its value is
stable under any extra fuel beyond the bound (the `while (true)` loop
stops), it is bounded by the number of days from the earliest recorded
date to today, and every date earlier than the earliest recorded date has
no entry (what forces the stop at the latest there). -/
theorem calculateStreak_terminates (state : AppState) (today : Int) :
    (∀ extra : Nat,
      streakFuel state today (streakFuelBound state today + extra) today
        = calculateStreak state today) ∧
    calculateStreak state today ≤ (today + 1 - earliestDay state today).toNat ∧
    (∀ d : Int, d < earliestDay state today → lookup? state.days d = none) := by
  refine ⟨fun extra => ?_, ?_, lookup?_none_of_lt_earliest state today⟩
  · exact streakFuel_congr state today _ _ today (by rw [streakFuelBound]; omega)
      (by rw [streakFuelBound]; omega)
  · exact streakFuel_le_bound state today _ today (by rw [streakFuelBound]; omega)

/-- Witness for C10: on the default state the walk from day 0 is stable
under extra fuel, and a date before the earliest recorded one has no
entry. -/
theorem calculateStreak_terminates_witness :
    streakFuel (getDefaultState "en") 0 (streakFuelBound (getDefaultState "en") 0 + 5) 0
      = calculateStreak (getDefaultState "en") 0 ∧
    lookup? (getDefaultState "en").days (-3) = none :=
  ⟨(calculateStreak_terminates (getDefaultState "en") 0).1 5,
   (calculateStreak_terminates (getDefaultState "en") 0).2.2 (-3) (by decide)⟩

-- ── C5: weekly-goal migration ──

theorem dropPrefix?_append (pat s : List Char) :
    dropPrefix? pat (pat ++ s) = some s := by
  induction pat with
  | nil => simp [dropPrefix?]
  | cons p ps ih => simp [dropPrefix?, ih]

theorem replaceFirstL_prepend (p : Char) (ps rep s : List Char) :
    replaceFirstL (p :: ps) rep ((p :: ps) ++ s) = rep ++ s := by
  have h : dropPrefix? (p :: ps) (p :: (ps ++ s)) = some s := dropPrefix?_append _ _
  show (match dropPrefix? (p :: ps) (p :: (ps ++ s)) with
    | some rest => rep ++ rest
    | none => p :: replaceFirstL (p :: ps) rep (ps ++ s)) = rep ++ s
  rw [h]

theorem jsReplaceFirst_weekly (rest : String) :
    jsReplaceFirst ("weekly-" ++ rest) "weekly-" "monthly-" = "monthly-" ++ rest := by
  obtain ⟨l⟩ := rest
  show String.mk (replaceFirstL "weekly-".data "monthly-".data ("weekly-".data ++ l))
    = String.mk ("monthly-".data ++ l)
  rw [show "weekly-".data = 'w' :: "eekly-".data from rfl,
    replaceFirstL_prepend 'w' "eekly-".data "monthly-".data l]

theorem findMonthlyGoalGallery_id (i : String) (g : MonthlyGoalGalleryItem)
    (h : findMonthlyGoalGallery i = some g) : g.id = i := by
  have hp := List.find?_some h
  simpa using hp

theorem isNullish_eq_false (v : JVal) (h : v ≠ JVal.null ∧ v ≠ JVal.undefined) :
    isNullish v = false := by
  cases v
  case null => exact absurd rfl h.1
  case undefined => exact absurd rfl h.2
  all_goals rfl

/-- C5: importing a document of (truthy) version below 3 maps each
weekly-goal id with prefix `weekly-` to the corresponding `monthly-` id;
when the current gallery contains that id, the converted goal — with the
gallery item's fields and default target — is in `monthlyGoals` after
migration, otherwise no goal with that id exists there.  The shape
hypotheses confine the statement to documents on which the source
migration runs without throwing. -/
theorem import_weekly_goal_migration (now : String) (doc : JVal) (fs : List (String × JVal))
    (v : Int) (gs : List JVal) (rest : String)
    (hobj : doc = JVal.obj fs)
    (hv : jGet doc "version" = JVal.num v) (hv0 : v ≠ 0) (hv3 : v < 3)
    (hwg : jGet doc "weeklyGoals" = JVal.arr gs)
    (hstrs : ∀ g ∈ gs, ∃ s, g = JVal.str s)
    (hmem : JVal.str ("weekly-" ++ rest) ∈ gs)
    (hacts : ∃ as, jor (jGet doc "actions") (JVal.arr []) = JVal.arr as
      ∧ ∀ a ∈ as, a ≠ JVal.null ∧ a ≠ JVal.undefined)
    (hdays : ∀ p ∈ jEntries (jor (jGet doc "days") (JVal.obj [])),
      p.2 ≠ JVal.null ∧ p.2 ≠ JVal.undefined) :
    importDataJ now (some doc)
      = some (migrateToV4J now (migrateToV3J now doc)) ∧
    (∀ item, findMonthlyGoalGallery ("monthly-" ++ rest) = some item →
      goalObjOfItem item
          ∈ jElems (jGet (migrateToV4J now (migrateToV3J now doc)) "monthlyGoals")
        ∧ jGet (goalObjOfItem item) "id" = JVal.str ("monthly-" ++ rest)
        ∧ jGet (goalObjOfItem item) "target" = JVal.num item.defaultTarget) ∧
    (findMonthlyGoalGallery ("monthly-" ++ rest) = none →
      ∀ g ∈ jElems (jGet (migrateToV4J now (migrateToV3J now doc)) "monthlyGoals"),
        jGet g "id" ≠ JVal.str ("monthly-" ++ rest)) := by
  have hgoals :
      jElems (jGet (migrateToV4J now (migrateToV3J now doc)) "monthlyGoals")
        = gs.filterMap goalOfOldId := by
    have hv3wg : jGet (migrateToV3J now doc) "weeklyGoals"
        = jor (jGet doc "weeklyGoals") (JVal.arr []) := rfl
    rw [show jElems (jGet (migrateToV4J now (migrateToV3J now doc)) "monthlyGoals")
        = (jElems (jor (jGet (migrateToV3J now doc) "weeklyGoals") (JVal.arr []))).filterMap
          goalOfOldId from rfl, hv3wg, hwg]
    rfl
  obtain ⟨as, hasEq, hasN⟩ := hacts
  refine ⟨?_, fun item hfound => ?_, fun hnone g hg hid => ?_⟩
  · have hcond : jsTruthy doc = true ∧ typeofObject doc = true
        ∧ jsTruthy (jGet doc "version") = true := by
      subst hobj
      refine ⟨rfl, rfl, ?_⟩
      rw [hv]
      simpa [jsTruthy] using hv0
    have hlt : jltNum (jGet doc "version") 3 = true := by
      rw [hv]
      simpa [jltNum]
    have hT3 : migrateToV3Throws doc = false := by
      have c1 : isArrVal (jor (jGet doc "actions") (JVal.arr [])) = true := by
        rw [hasEq]
        rfl
      have c2 : (jElems (jor (jGet doc "actions") (JVal.arr []))).any isNullish = false := by
        rw [hasEq, List.any_eq_false]
        intro a ha
        simp [isNullish_eq_false a (hasN a ha)]
      have c3 : (jEntries (jor (jGet doc "days") (JVal.obj []))).any
          (fun p => isNullish p.2) = false := by
        rw [List.any_eq_false]
        intro p hp
        simp [isNullish_eq_false p.2 (hdays p hp)]
      rw [migrateToV3Throws, c1, c2, c3]
      rfl
    have hT4 : migrateToV4Throws (migrateToV3J now doc) = false := by
      have ha3 : jGet (migrateToV3J now doc) "actions"
          = JVal.arr ((jElems (jor (jGet doc "actions") (JVal.arr []))).map
            (migrateActionV3 now)) := rfl
      have hw3 : jGet (migrateToV3J now doc) "weeklyGoals" = JVal.arr gs := by
        rw [show jGet (migrateToV3J now doc) "weeklyGoals"
            = jor (jGet doc "weeklyGoals") (JVal.arr []) from rfl, hwg]
        rfl
      have hd3 : jGet (migrateToV3J now doc) "days"
          = JVal.obj ((jEntries (jor (jGet doc "days") (JVal.obj []))).map
            (fun p => (p.1, migrateDayV3 p.2))) := rfl
      have c1 : isArrVal (jor (jGet (migrateToV3J now doc) "actions") (JVal.arr []))
          = true := by
        rw [ha3]
        rfl
      have c2 : (jElems (jor (jGet (migrateToV3J now doc) "actions") (JVal.arr []))).any
          isNullish = false := by
        rw [ha3, show jor (JVal.arr ((jElems (jor (jGet doc "actions") (JVal.arr []))).map
            (migrateActionV3 now))) (JVal.arr [])
          = JVal.arr ((jElems (jor (jGet doc "actions") (JVal.arr []))).map
            (migrateActionV3 now)) from rfl]
        rw [show jElems (JVal.arr ((jElems (jor (jGet doc "actions") (JVal.arr []))).map
            (migrateActionV3 now)))
          = (jElems (jor (jGet doc "actions") (JVal.arr []))).map (migrateActionV3 now)
          from rfl]
        rw [List.any_eq_false]
        intro a ha
        obtain ⟨x, _, rfl⟩ := List.mem_map.mp ha
        simp [migrateActionV3, isNullish]
      have c3 : isArrVal (jor (jGet (migrateToV3J now doc) "weeklyGoals") (JVal.arr []))
          = true := by
        rw [hw3]
        rfl
      have c4 : (jElems (jor (jGet (migrateToV3J now doc) "weeklyGoals") (JVal.arr []))).any
          (fun g => !isStrVal g) = false := by
        rw [hw3]
        rw [show jElems (jor (JVal.arr gs) (JVal.arr [])) = gs from rfl]
        rw [List.any_eq_false]
        intro g hg
        obtain ⟨s, rfl⟩ := hstrs g hg
        simp [isStrVal]
      have c5 : (jsTruthy (jGet (migrateToV3J now doc) "days")
          && (jEntries (jGet (migrateToV3J now doc) "days")).any
            (fun p => isNullish p.2)) = false := by
        rw [hd3]
        rw [show jsTruthy (JVal.obj ((jEntries (jor (jGet doc "days") (JVal.obj []))).map
            (fun p => (p.1, migrateDayV3 p.2)))) = true from rfl]
        rw [show jEntries (JVal.obj ((jEntries (jor (jGet doc "days") (JVal.obj []))).map
            (fun p => (p.1, migrateDayV3 p.2))))
          = (jEntries (jor (jGet doc "days") (JVal.obj []))).map
            (fun p => (p.1, migrateDayV3 p.2)) from rfl]
        rw [Bool.true_and, List.any_eq_false]
        intro p hp
        obtain ⟨x, _, rfl⟩ := List.mem_map.mp hp
        simp [migrateDayV3, isNullish]
      rw [migrateToV4Throws, c1, c2, c3, c4, c5]
      rfl
    have hE3 : migrateToV3E now doc = some (migrateToV3J now doc) := by
      simp [migrateToV3E, hT3]
    have hE4 : migrateToV4E now (migrateToV3J now doc)
        = some (migrateToV4J now (migrateToV3J now doc)) := by
      simp [migrateToV4E, hT4]
    simp [importDataJ, hcond, hlt, hE3, hE4]
  · have hmap : goalOfOldId (JVal.str ("weekly-" ++ rest)) = some (goalObjOfItem item) := by
      rw [goalOfOldId, jsReplaceFirst_weekly, hfound]
    refine ⟨?_, ?_, rfl⟩
    · rw [hgoals]
      exact List.mem_filterMap.mpr ⟨JVal.str ("weekly-" ++ rest), hmem, hmap⟩
    · have hid := findMonthlyGoalGallery_id _ _ hfound
      rw [show jGet (goalObjOfItem item) "id" = JVal.str item.id from rfl, hid]
  · rw [hgoals] at hg
    obtain ⟨x, hxmem, hfx⟩ := List.mem_filterMap.mp hg
    obtain ⟨s, rfl⟩ := hstrs x hxmem
    rw [goalOfOldId] at hfx
    cases hfind : findMonthlyGoalGallery (jsReplaceFirst s "weekly-" "monthly-") with
    | none => rw [hfind] at hfx; exact Option.noConfusion hfx
    | some item =>
      rw [hfind] at hfx
      have hgitem : g = goalObjOfItem item := (Option.some.inj hfx).symm
      have hgid : jGet g "id" = JVal.str item.id := by rw [hgitem]; rfl
      rw [hgid] at hid
      have hideq : item.id = "monthly-" ++ rest := by
        injection hid
      have hiid := findMonthlyGoalGallery_id _ _ hfind
      have h1 : findMonthlyGoalGallery (jsReplaceFirst s "weekly-" "monthly-") = none := by
        rw [← hiid, hideq]
        exact hnone
      rw [h1] at hfind
      exact Option.noConfusion hfind

/-- Concrete version-2 document with the goal id `weekly-charity`. -/
def v2doc : JVal :=
  JVal.obj
    [ ("version", JVal.num 2),
      ("weeklyGoals", JVal.arr [JVal.str "weekly-charity"]) ]

/-- The `monthly-charity` gallery item. -/
def charityItem : MonthlyGoalGalleryItem :=
  { id := "monthly-charity", titleKey := "monthly.charity", titleAr := "صدقة كبيرة",
    descriptionKey := "monthly.charity_desc",
    descriptionAr := "تبرع بمبلغ كبير أو كفالة يتيم أو إطعام عائلات",
    iconName := "heart-handshake", category := "charity", defaultTarget := 4 }

/-- Witness for C5: importing the version-2 document with goal id
`weekly-charity` produces a `monthly-charity` monthly goal with the
gallery's default target. -/
theorem import_weekly_goal_migration_witness :
    importDataJ "NOW" (some v2doc)
      = some (migrateToV4J "NOW" (migrateToV3J "NOW" v2doc)) ∧
    goalObjOfItem charityItem
      ∈ jElems (jGet (migrateToV4J "NOW" (migrateToV3J "NOW" v2doc)) "monthlyGoals") ∧
    jGet (goalObjOfItem charityItem) "id" = JVal.str ("monthly-" ++ "charity") := by
  have h := import_weekly_goal_migration "NOW" v2doc
    [ ("version", JVal.num 2), ("weeklyGoals", JVal.arr [JVal.str "weekly-charity"]) ]
    2 [JVal.str "weekly-charity"] "charity" rfl rfl (by decide) (by decide) rfl
    (fun g hg => by
      rw [List.mem_singleton.mp hg]
      exact ⟨"weekly-charity", rfl⟩)
    (by
      rw [show ("weekly-" ++ "charity" : String) = "weekly-charity" from rfl]
      exact List.mem_singleton.mpr rfl)
    ⟨[], rfl, by simp⟩
    (fun p hp => by simp [v2doc, jGet, lookup?, jor, jsTruthy, jEntries] at hp)
  have hb := h.2.1 charityItem rfl
  exact ⟨h.1, hb.1, hb.2.1⟩

-- ── C9: importData error handling and routing ──

/-- C9: `importData` never throws — the embedding is a total function in
which every thrown parse or migration error surfaces as `none`:
unparseable text yields `none`; a parsed value yields `none` exactly when
it fails the plausibility check (truthy, of object type, with a truthy
`version` — the code's reading of a plausible document) or when the
routed migration throws on it; every plausible document takes the very
version dispatch of the load path (`loadRouteE`), which sends versions
below 3 through both migration steps and version 3 through the final
step, and on a thrown migration the import's `catch` returns `null`
where the load path's returns the default state. -/
theorem importData_spec (now : String) :
    importDataJ now none = none ∧
    (∀ j : JVal,
      ¬(jsTruthy j = true ∧ typeofObject j = true ∧ jsTruthy (jGet j "version") = true) →
      importDataJ now (some j) = none) ∧
    (∀ j : JVal,
      importDataJ now (some j) = none
        ↔ ¬(jsTruthy j = true ∧ typeofObject j = true
            ∧ jsTruthy (jGet j "version") = true)
          ∨ loadRouteE now j = none) ∧
    (∀ j : JVal,
      (jsTruthy j = true ∧ typeofObject j = true ∧ jsTruthy (jGet j "version") = true) →
      importDataJ now (some j) = loadRouteE now j
        ∧ (j ≠ JVal.null →
          loadStateJ now (some j)
            = (loadRouteE now j).getD (encodeStateJ (getDefaultState "en")))) ∧
    (∀ (j : JVal) (v : Int), jGet j "version" = JVal.num v → v < 3 →
      loadRouteE now j = (migrateToV3E now j).bind (migrateToV4E now)) ∧
    (∀ (j : JVal) (v : Int), jGet j "version" = JVal.num v → 3 ≤ v → v < 4 →
      loadRouteE now j = migrateToV4E now j) ∧
    (∀ (j : JVal) (v : Int), jGet j "version" = JVal.num v → 4 ≤ v →
      loadRouteE now j = some j) := by
  have himp : ∀ j : JVal,
      (jsTruthy j = true ∧ typeofObject j = true ∧ jsTruthy (jGet j "version") = true) →
      importDataJ now (some j) = loadRouteE now j := by
    intro j hc
    simp only [importDataJ, if_pos hc, loadRouteE]
  refine ⟨rfl, fun j hc => ?_, fun j => ?_, fun j hc => ?_, fun j v hv hlt => ?_,
    fun j v hv hge hlt => ?_, fun j v hv hge => ?_⟩
  · simp only [importDataJ, if_neg hc]
  · by_cases hc : jsTruthy j = true ∧ typeofObject j = true
        ∧ jsTruthy (jGet j "version") = true
    · rw [himp j hc]
      constructor
      · intro hnone
        exact Or.inr hnone
      · intro h
        rcases h with h | h
        · exact absurd hc h
        · exact h
    · simp only [importDataJ, if_neg hc]
      constructor
      · intro _
        exact Or.inl hc
      · intro _
        trivial
  · refine ⟨himp j hc, fun hnn => ?_⟩
    cases j
    case null => exact absurd rfl hnn
    all_goals rfl
  · rw [loadRouteE, hv, if_pos (by simpa [jltNum] using hlt)]
  · rw [loadRouteE, hv, if_neg (by simp [jltNum]; omega),
      if_pos (by simpa [jltNum] using hlt)]
  · rw [loadRouteE, hv, if_neg (by simp [jltNum]; omega),
      if_neg (by simp [jltNum]; omega)]

/-- Plausible version-2 document whose migration throws: `actions` is the
number 5, so `(5).map` raises a `TypeError` and the source returns
`null`. -/
def v2badDoc : JVal :=
  JVal.obj [("version", JVal.num 2), ("actions", JVal.num 5)]

/-- Witness for C9 at concrete inputs: unparseable text, a non-object, a
document without version, a plausible document whose migration throws
(yielding `null`), and the routing of version-2 and version-4 documents. -/
theorem importData_spec_witness :
    importDataJ "NOW" none = none ∧
    importDataJ "NOW" (some (JVal.num 5)) = none ∧
    importDataJ "NOW" (some (JVal.obj [("days", JVal.obj [])])) = none ∧
    importDataJ "NOW" (some v2badDoc) = none ∧
    importDataJ "NOW" (some v2doc) = loadRouteE "NOW" v2doc ∧
    loadRouteE "NOW" v2doc = (migrateToV3E "NOW" v2doc).bind (migrateToV4E "NOW") ∧
    loadRouteE "NOW" (JVal.obj [("version", JVal.num 4)])
      = some (JVal.obj [("version", JVal.num 4)]) := by
  have h := importData_spec "NOW"
  refine ⟨h.1, h.2.1 _ (by decide), h.2.1 _ (by decide),
    (h.2.2.1 v2badDoc).mpr (Or.inr rfl),
    (h.2.2.2.1 v2doc (by decide)).1, h.2.2.2.2.1 v2doc 2 rfl (by decide),
    h.2.2.2.2.2.2 (JVal.obj [("version", JVal.num 4)]) 4 rfl (by decide)⟩

-- ── C6: export / import round-trip ──

/-- C6: for a document at the current schema version, importing its export
succeeds and returns the very same document; its `version`, `locale`,
`dailyHabits`, `monthlyGoals` and `days` fields are exactly the
serializations of the corresponding state content. -/
theorem export_import_roundtrip (s : AppState) (now : String)
    (hv : s.version = APP_STATE_VERSION) :
    importDataJ now (some (exportDataJ s)) = some (exportDataJ s) ∧
    jGet (exportDataJ s) "version" = JVal.num s.version ∧
    jGet (exportDataJ s) "locale" = JVal.str s.locale ∧
    jGet (exportDataJ s) "dailyHabits" = JVal.arr (s.dailyHabits.map encodeHabitJ) ∧
    jGet (exportDataJ s) "monthlyGoals" = JVal.arr (s.monthlyGoals.map encodeGoalJ) ∧
    jGet (exportDataJ s) "days"
      = JVal.obj (s.days.map (fun p => (toString p.1, encodeEntryJ p.2))) := by
  have hver : jGet (exportDataJ s) "version" = JVal.num s.version := rfl
  refine ⟨?_, hver, rfl, rfl, rfl, rfl⟩
  have hcond : jsTruthy (exportDataJ s) = true ∧ typeofObject (exportDataJ s) = true
      ∧ jsTruthy (jGet (exportDataJ s) "version") = true := by
    refine ⟨rfl, rfl, ?_⟩
    rw [hver, hv]
    rfl
  have hnot3 : jltNum (jGet (exportDataJ s) "version") 3 = false := by
    rw [hver, hv]
    rfl
  have hnot4 : jltNum (jGet (exportDataJ s) "version") 4 = false := by
    rw [hver, hv]
    rfl
  simp [importDataJ, hcond, hnot3, hnot4]

/-- Witness for C6: the round-trip on a concrete current-version state
with a habit and a recorded day. -/
theorem export_import_roundtrip_witness :
    importDataJ "NOW" (some (exportDataJ exDayState)) = some (exportDataJ exDayState) ∧
    jGet (exportDataJ exDayState) "locale" = JVal.str exDayState.locale :=
  ⟨(export_import_roundtrip exDayState "NOW" rfl).1,
   (export_import_roundtrip exDayState "NOW" rfl).2.2.1⟩

end Dayma
